import Mathlib

/-! # wayland_layer_shell: the Linux plugin (`linux/wayland_layer_shell_plugin.cc`)

A shallow embedding of the method-channel plugin.  The plugin is a dispatcher
over thin handlers; every handler reads its arguments from an `FlValue`,
consults the toolkit, and issues calls on a `GtkWindow`.  The embedding keeps

* the plugin instance (`registrar`, `target_window`),
* the process-wide registry `initialized_windows`,
* the sequence of calls issued on windows (`trace`), and
* the answers of the host (toolkit, layer-shell library, Flutter embedder)
  to the queries a handler makes while it runs (`Host`).
-/

namespace WaylandLayerShell

/-! ## Values crossing the method channel -/

/-- A `GtkWindow *`: only the identity of the pointer matters. -/
abbrev GtkWindow := Nat

/-- An `FlValue` of the Flutter Linux embedder.  A `string` holds the
characters of the C string that `fl_value_get_string` returns.  `other`
stands for the value types this plugin never inspects (float, typed lists,
custom). -/
inductive FlValue where
  | null
  | bool (b : Bool)
  | int (v : Int)
  | string (s : String)
  | list (xs : List FlValue)
  | map (kvs : List (FlValue × FlValue))
  | other (type : Nat)

/-- An `FlMethodResponse`. -/
inductive FlMethodResponse where
  | success (result : FlValue)
  | error (code : String) (message : String)
  | not_implemented

/-- Conversion of a 64-bit value to `int` / `gint` (32 bits, two's complement). -/
def to_gint (v : Int) : Int :=
  (v + 2 ^ 31) % 2 ^ 32 - 2 ^ 31

/-- First value of a map whose key is the string `key` (`fl_value_lookup`
walks the pairs in order and returns the first equal key). -/
def lookup_pairs (key : String) : List (FlValue × FlValue) → Option FlValue
  | [] => none
  | (FlValue.string k, v) :: rest => if k = key then some v else lookup_pairs key rest
  | _ :: rest => lookup_pairs key rest

/-- The embedder call `fl_value_lookup_string(args, key)`: the value stored
under `key`, or `nullptr` (`none`) when `args` is not a map or has no such
key. -/
def fl_value_lookup_string (args : FlValue) (key : String) : Option FlValue :=
  match args with
  | FlValue.map kvs => lookup_pairs key kvs
  | _ => none

/-- The embedder call `fl_value_get_int`: guarded by `g_return_val_if_fail`,
it yields 0 for `nullptr` and for a value that is not an integer. -/
def fl_value_get_int : Option FlValue → Int
  | some (FlValue.int v) => v
  | _ => 0

/-- The embedder call `fl_value_get_bool`: `FALSE` for `nullptr` and for a
value that is not a boolean. -/
def fl_value_get_bool : Option FlValue → Bool
  | some (FlValue.bool b) => b
  | _ => false

/-! ## Host, plugin instance and global state -/

/-- Calls the plugin issues on a window, through the toolkit and through the
layer-shell library, setters and getters alike.  Queries about the platform
(`gtk_layer_is_supported`, the display and its monitors,
`gtk_widget_get_mapped`, the registrar's view) change nothing and are
answered by the `Host`; they are not recorded.  Enumerations
(`GtkLayerShellLayer`, `GtkLayerShellEdge`, `GtkLayerShellKeyboardMode`) are
passed as the integers cast to them; the monitor of `gtk_layer_set_monitor`
is the index handed to `gdk_display_get_monitor`, or `none` for `NULL`. -/
inductive Call where
  | gtk_widget_hide (w : GtkWindow)
  | gtk_main_iteration_do
  | gtk_widget_show (w : GtkWindow)
  | gtk_widget_set_size_request (w : GtkWindow) (width height : Int)
  | gtk_window_set_decorated (w : GtkWindow) (setting : Bool)
  | gtk_layer_init_for_window (w : GtkWindow)
  | gtk_layer_set_layer (w : GtkWindow) (layer : Int)
  | gtk_layer_get_layer (w : GtkWindow)
  | gtk_layer_set_monitor (w : GtkWindow) (monitor : Option Int)
  | gtk_layer_set_anchor (w : GtkWindow) (edge : Int) (anchor_to_edge : Bool)
  | gtk_layer_get_anchor (w : GtkWindow) (edge : Int)
  | gtk_layer_set_margin (w : GtkWindow) (edge : Int) (margin_size : Int)
  | gtk_layer_get_margin (w : GtkWindow) (edge : Int)
  | gtk_layer_set_exclusive_zone (w : GtkWindow) (exclusive_zone : Int)
  | gtk_layer_get_exclusive_zone (w : GtkWindow)
  | gtk_layer_auto_exclusive_zone_enable (w : GtkWindow)
  | gtk_layer_auto_exclusive_zone_is_enabled (w : GtkWindow)
  | gtk_layer_set_keyboard_mode (w : GtkWindow) (mode : Int)
  | gtk_layer_get_keyboard_mode (w : GtkWindow)
  deriving DecidableEq

/-- What the host (toolkit, layer-shell library, operating system) answers
while one method call runs.  None of it is under the plugin's control, so
every handler takes it as an argument and successive calls may see different
hosts.

The wait loop of the initialization handler ends when
`gtk_widget_get_mapped` turns false; `hide_rounds` says after how many rounds
that happens.  A window that stays mapped for ever keeps the handler from
returning at all (the loop has no timeout); such a call produces no response
and no later call, and is not represented.  The rounds of the main loop are
taken to dispatch no call into this plugin. -/
structure Host where
  /-- Toplevel window (`gtk_widget_get_toplevel`) of the view returned by
  `fl_plugin_registrar_get_view(registrar)`; `none` when there is no view. -/
  view_toplevel : Nat → Option GtkWindow
  /-- Answer of `gtk_layer_is_supported()`. -/
  supported : Bool
  /-- Answer of `gtk_widget_get_mapped` when the call starts. -/
  mapped : GtkWindow → Bool
  /-- Number of `gtk_main_iteration_do` rounds after `gtk_widget_hide` until
  `gtk_widget_get_mapped` answers false (0 when the hide is synchronous). -/
  hide_rounds : GtkWindow → Nat
  /-- Model names (`gdk_monitor_get_model`) of the attached monitors, in
  display order; its length is `gdk_display_get_n_monitors`. -/
  monitors : List String
  /-- Field `version` of the `uname` data. -/
  uname_version : String
  /-- Answers of the getters of the layer-shell library. -/
  gtk_layer_get_layer : GtkWindow → Int
  gtk_layer_get_anchor : GtkWindow → Int → Bool
  gtk_layer_get_margin : GtkWindow → Int → Int
  gtk_layer_get_exclusive_zone : GtkWindow → Int
  gtk_layer_auto_exclusive_zone_is_enabled : GtkWindow → Bool
  gtk_layer_get_keyboard_mode : GtkWindow → Int

/-- The plugin instance `struct _WaylandLayerShellPlugin`. -/
structure WaylandLayerShellPlugin where
  registrar : Nat
  target_window : Option GtkWindow

/-- Process-wide state: the registry `initialized_windows`
(`std::map<GtkWindow *, bool>`) and the calls issued so far, oldest first. -/
structure Global where
  initialized_windows : GtkWindow → Option Bool
  trace : List Call

/-- The function `wayland_layer_shell_plugin_init`. -/
def wayland_layer_shell_plugin_init (registrar : Nat) : WaylandLayerShellPlugin :=
  { registrar := registrar, target_window := none }

/-- The state of a process that has not run the plugin yet. -/
def Global.start : Global :=
  { initialized_windows := fun _ => none, trace := [] }

/-- Append calls to the trace. -/
def Global.emit (g : Global) (cs : List Call) : Global :=
  { g with trace := g.trace ++ cs }

/-- The function `get_window`: the cached window, else the toplevel of the
registrar's view, which is then cached. -/
def get_window (h : Host) (self : WaylandLayerShellPlugin) :
    Option GtkWindow × WaylandLayerShellPlugin :=
  match self.target_window with
  | some w => (some w, self)
  | none =>
    match h.view_toplevel self.registrar with
    | none => (none, self)
    | some window => (some window, { self with target_window := some window })

/-! ## Handlers -/

/-- Result of a handler: new global state, new instance state, response. -/
abbrev Outcome := Global × WaylandLayerShellPlugin × FlMethodResponse

/-- A success response carrying a boolean. -/
def respond_bool (b : Bool) : FlMethodResponse :=
  FlMethodResponse.success (FlValue.bool b)

/-- A success response carrying an integer. -/
def respond_int (v : Int) : FlMethodResponse :=
  FlMethodResponse.success (FlValue.int v)

/-- The handler `is_supported`. -/
def is_supported (h : Host) (g : Global) (self : WaylandLayerShellPlugin) : Outcome :=
  (g, self, respond_bool h.supported)

/-- The handler `get_platform_version`. -/
def get_platform_version (h : Host) (g : Global) (self : WaylandLayerShellPlugin) : Outcome :=
  (g, self, FlMethodResponse.success (FlValue.string ("Linux " ++ h.uname_version)))

/-- The handler `show_window`. -/
def show_window (h : Host) (g : Global) (self : WaylandLayerShellPlugin) : Outcome :=
  match get_window h self with
  | (none, self1) => (g, self1, respond_bool false)
  | (some gtk_window, self1) =>
    (g.emit [Call.gtk_widget_show gtk_window], self1, respond_bool true)

/-- The handler `set_layer`. -/
def set_layer (h : Host) (g : Global) (self : WaylandLayerShellPlugin) (args : FlValue) :
    Outcome :=
  match get_window h self with
  | (none, self1) => (g, self1, respond_bool false)
  | (some window, self1) =>
    let layer := to_gint (fl_value_get_int (fl_value_lookup_string args "layer"))
    (g.emit [Call.gtk_layer_set_layer window layer], self1, respond_bool true)

/-- The handler `get_layer`. -/
def get_layer (h : Host) (g : Global) (self : WaylandLayerShellPlugin) : Outcome :=
  match get_window h self with
  | (none, self1) => (g, self1, respond_int 0)
  | (some window, self1) =>
    (g.emit [Call.gtk_layer_get_layer window], self1, respond_int (h.gtk_layer_get_layer window))

/-! ## GLib string helpers used by monitor selection -/

/-- The GLib call `g_strsplit(string, ":", 2)`: nothing for the empty string,
the whole string when it has no colon, else the text before the first colon
and the remainder after it. -/
def g_strsplit (string : List Char) : List (List Char) :=
  match string with
  | [] => []
  | _ =>
    match string.dropWhile (fun c => c != ':') with
    | [] => [string]
    | _ :: remainder => [string.takeWhile (fun c => c != ':'), remainder]

/-- GLib's `ISSPACE`: space, form feed, newline, carriage return, tab,
vertical tab. -/
def ISSPACE (c : Char) : Bool :=
  c = ' ' || c = Char.ofNat 12 || c = Char.ofNat 10 || c = Char.ofNat 13 ||
    c = Char.ofNat 9 || c = Char.ofNat 11

/-- The largest `guint64`. -/
def G_MAXUINT64 : Nat := 2 ^ 64 - 1

/-- The digit loop of GLib's `g_parse_long_long` in base 10: accumulates
decimal digits into `ui64` until the first other character, raising
`overflow` instead of exceeding `G_MAXUINT64`. -/
def parse_digits : List Char → Nat → Bool → Nat × Bool
  | [], ui64, overflow => (ui64, overflow)
  | c :: s, ui64, overflow =>
    if '0' ≤ c ∧ c ≤ '9' then
      let d := c.toNat - '0'.toNat
      if ui64 > G_MAXUINT64 / 10 ∨ (ui64 = G_MAXUINT64 / 10 ∧ d > G_MAXUINT64 % 10) then
        parse_digits s ui64 true
      else
        parse_digits s (ui64 * 10 + d) overflow
    else (ui64, overflow)

/-- The sign test of GLib's `g_parse_long_long`: whether the number is
negative, and the text after an optional sign. -/
def parse_sign (s : List Char) : Bool × List Char :=
  match s with
  | '-' :: t => (true, t)
  | '+' :: t => (false, t)
  | _ => (false, s)

/-- The GLib call `g_ascii_strtoll(nptr, nullptr, 10)`: skips leading white
space, reads an optional sign and the decimal digits that follow, yields 0
when there is none, and clamps to the `gint64` range. -/
def g_ascii_strtoll (nptr : List Char) : Int :=
  let signed := parse_sign (nptr.dropWhile ISSPACE)
  let parsed := parse_digits signed.2 0 false
  let result : Nat := if parsed.2 then G_MAXUINT64 else parsed.1
  if signed.1 then
    if result > 2 ^ 63 then -(2 ^ 63 : Int) else -(result : Int)
  else
    if result > 2 ^ 63 - 1 then (2 ^ 63 - 1 : Int) else (result : Int)

/-- The conversion `%i` of `printf` for an `int`. -/
def printf_i (i : Int) : List Char :=
  if i < 0 then '-' :: Nat.toDigits 10 i.natAbs else Nat.toDigits 10 i.natAbs

/-- The call `g_strdup_printf("%i:%s", i, model)` of `get_monitor_list`. -/
def monitor_entry (i : Int) (model : String) : String :=
  String.mk (printf_i i ++ ':' :: model.data)

/-! ## Monitors -/

/-- Answer of `gdk_display_get_n_monitors`. -/
def gdk_display_get_n_monitors (h : Host) : Int :=
  (h.monitors.length : Int)

/-- The handler `get_monitor_list`. -/
def get_monitor_list (h : Host) (g : Global) (self : WaylandLayerShellPlugin) : Outcome :=
  (g, self, FlMethodResponse.success (FlValue.list
    ((List.range h.monitors.length).map
      (fun (i : Nat) => FlValue.string (monitor_entry (Int.ofNat i) (h.monitors.getD i ""))))))

/-- Lines 250-271 of `set_monitor`: the index a monitor id resolves to.  A
string is split at its first colon and its first part parsed (the index
stays -1 when there is no first part); an integer is taken as it is; `none`
is the rejection of any other type. -/
def set_monitor_index (monitor_value : FlValue) : Option Int :=
  match monitor_value with
  | FlValue.string monitor_str =>
    match g_strsplit monitor_str.data with
    | parts0 :: _ => some (to_gint (g_ascii_strtoll parts0))
    | [] => some (-1)
  | FlValue.int v => some (to_gint v)
  | _ => none

/-- The handler `set_monitor`. -/
def set_monitor (h : Host) (g : Global) (self : WaylandLayerShellPlugin) (args : FlValue) :
    Outcome :=
  match get_window h self with
  | (none, self1) => (g, self1, respond_bool false)
  | (some window, self1) =>
    match fl_value_lookup_string args "id" with
    | none => (g, self1, respond_bool false)
    | some monitor_value =>
      match set_monitor_index monitor_value with
      | none => (g, self1, respond_bool false)
      | some monitor_index =>
        if monitor_index = -1 then
          (g.emit [Call.gtk_layer_set_monitor window none], self1, respond_bool true)
        else if 0 ≤ monitor_index ∧ monitor_index < gdk_display_get_n_monitors h then
          (g.emit [Call.gtk_layer_set_monitor window (some monitor_index)], self1,
            respond_bool true)
        else
          (g, self1, respond_bool false)

/-! ## Per-attribute handlers -/

/-- The handler `set_anchor`. -/
def set_anchor (h : Host) (g : Global) (self : WaylandLayerShellPlugin) (args : FlValue) :
    Outcome :=
  match get_window h self with
  | (none, self1) => (g, self1, respond_bool false)
  | (some window, self1) =>
    let edge := to_gint (fl_value_get_int (fl_value_lookup_string args "edge"))
    let anchor_to_edge := fl_value_get_bool (fl_value_lookup_string args "anchor_to_edge")
    (g.emit [Call.gtk_layer_set_anchor window edge anchor_to_edge], self1, respond_bool true)

/-- The handler `get_anchor`. -/
def get_anchor (h : Host) (g : Global) (self : WaylandLayerShellPlugin) (args : FlValue) :
    Outcome :=
  match get_window h self with
  | (none, self1) => (g, self1, respond_bool false)
  | (some window, self1) =>
    let edge := to_gint (fl_value_get_int (fl_value_lookup_string args "edge"))
    (g.emit [Call.gtk_layer_get_anchor window edge], self1,
      respond_bool (h.gtk_layer_get_anchor window edge))

/-- The handler `set_margin`. -/
def set_margin (h : Host) (g : Global) (self : WaylandLayerShellPlugin) (args : FlValue) :
    Outcome :=
  match get_window h self with
  | (none, self1) => (g, self1, respond_bool false)
  | (some window, self1) =>
    let edge := to_gint (fl_value_get_int (fl_value_lookup_string args "edge"))
    let margin_size := to_gint (fl_value_get_int (fl_value_lookup_string args "margin_size"))
    (g.emit [Call.gtk_layer_set_margin window edge margin_size], self1, respond_bool true)

/-- The handler `get_margin`. -/
def get_margin (h : Host) (g : Global) (self : WaylandLayerShellPlugin) (args : FlValue) :
    Outcome :=
  match get_window h self with
  | (none, self1) => (g, self1, respond_int 0)
  | (some window, self1) =>
    let edge := to_gint (fl_value_get_int (fl_value_lookup_string args "edge"))
    (g.emit [Call.gtk_layer_get_margin window edge], self1,
      respond_int (h.gtk_layer_get_margin window edge))

/-- The handler `set_exclusive_zone`. -/
def set_exclusive_zone (h : Host) (g : Global) (self : WaylandLayerShellPlugin)
    (args : FlValue) : Outcome :=
  match get_window h self with
  | (none, self1) => (g, self1, respond_bool false)
  | (some window, self1) =>
    let exclusive_zone :=
      to_gint (fl_value_get_int (fl_value_lookup_string args "exclusive_zone"))
    (g.emit [Call.gtk_layer_set_exclusive_zone window exclusive_zone], self1,
      respond_bool true)

/-- The handler `get_exclusive_zone`. -/
def get_exclusive_zone (h : Host) (g : Global) (self : WaylandLayerShellPlugin) : Outcome :=
  match get_window h self with
  | (none, self1) => (g, self1, respond_int 0)
  | (some window, self1) =>
    (g.emit [Call.gtk_layer_get_exclusive_zone window], self1,
      respond_int (h.gtk_layer_get_exclusive_zone window))

/-- The handler `enable_auto_exclusive_zone`. -/
def enable_auto_exclusive_zone (h : Host) (g : Global) (self : WaylandLayerShellPlugin) :
    Outcome :=
  match get_window h self with
  | (none, self1) => (g, self1, respond_bool false)
  | (some window, self1) =>
    (g.emit [Call.gtk_layer_auto_exclusive_zone_enable window], self1, respond_bool true)

/-- The handler `is_auto_exclusive_zone_enabled`. -/
def is_auto_exclusive_zone_enabled (h : Host) (g : Global) (self : WaylandLayerShellPlugin) :
    Outcome :=
  match get_window h self with
  | (none, self1) => (g, self1, respond_bool false)
  | (some window, self1) =>
    (g.emit [Call.gtk_layer_auto_exclusive_zone_is_enabled window], self1,
      respond_bool (h.gtk_layer_auto_exclusive_zone_is_enabled window))

/-- The handler `set_keyboard_mode`. -/
def set_keyboard_mode (h : Host) (g : Global) (self : WaylandLayerShellPlugin)
    (args : FlValue) : Outcome :=
  match get_window h self with
  | (none, self1) => (g, self1, respond_bool false)
  | (some window, self1) =>
    let keyboard_mode :=
      to_gint (fl_value_get_int (fl_value_lookup_string args "keyboard_mode"))
    (g.emit [Call.gtk_layer_set_keyboard_mode window keyboard_mode], self1, respond_bool true)

/-- The handler `get_keyboard_mode`. -/
def get_keyboard_mode (h : Host) (g : Global) (self : WaylandLayerShellPlugin) : Outcome :=
  match get_window h self with
  | (none, self1) => (g, self1, respond_int 0)
  | (some window, self1) =>
    (g.emit [Call.gtk_layer_get_keyboard_mode window], self1,
      respond_int (h.gtk_layer_get_keyboard_mode window))

/-! ## Initialization, disposal and dispatch -/

/-- Value of `GTK_LAYER_SHELL_LAYER_TOP` in the header of gtk-layer-shell. -/
def GTK_LAYER_SHELL_LAYER_TOP : Int := 2

/-- Value of `GTK_LAYER_SHELL_EDGE_LEFT` in the header of gtk-layer-shell. -/
def GTK_LAYER_SHELL_EDGE_LEFT : Int := 0

/-- Value of `GTK_LAYER_SHELL_EDGE_RIGHT` in the header of gtk-layer-shell. -/
def GTK_LAYER_SHELL_EDGE_RIGHT : Int := 1

/-- Value of `GTK_LAYER_SHELL_EDGE_TOP` in the header of gtk-layer-shell. -/
def GTK_LAYER_SHELL_EDGE_TOP : Int := 2

/-- Value of `GTK_LAYER_SHELL_EDGE_BOTTOM` in the header of gtk-layer-shell. -/
def GTK_LAYER_SHELL_EDGE_BOTTOM : Int := 3

/-- Value of `GTK_LAYER_SHELL_KEYBOARD_MODE_ON_DEMAND` in the header of
gtk-layer-shell. -/
def GTK_LAYER_SHELL_KEYBOARD_MODE_ON_DEMAND : Int := 2

/-- Lines 81-91 of the initialization handler: a mapped window is hidden and
the main loop is iterated until the window is no longer mapped. -/
def hide_and_wait (h : Host) (gtk_window : GtkWindow) : List Call :=
  if h.mapped gtk_window then
    Call.gtk_widget_hide gtk_window ::
      List.replicate (h.hide_rounds gtk_window) Call.gtk_main_iteration_do
  else []

/-- Lines 93-121 of the initialization handler: size request, decoration
removal, layer-shell init and the fixed layer-shell properties. -/
def fixed_configuration (gtk_window : GtkWindow) (args : FlValue) : List Call :=
  let width := to_gint (fl_value_get_int (fl_value_lookup_string args "width"))
  let height := to_gint (fl_value_get_int (fl_value_lookup_string args "height"))
  [ Call.gtk_widget_set_size_request gtk_window width height,
    Call.gtk_window_set_decorated gtk_window false,
    Call.gtk_layer_init_for_window gtk_window,
    Call.gtk_layer_set_layer gtk_window GTK_LAYER_SHELL_LAYER_TOP,
    Call.gtk_layer_set_anchor gtk_window GTK_LAYER_SHELL_EDGE_BOTTOM true,
    Call.gtk_layer_set_anchor gtk_window GTK_LAYER_SHELL_EDGE_LEFT true,
    Call.gtk_layer_set_anchor gtk_window GTK_LAYER_SHELL_EDGE_RIGHT true,
    Call.gtk_layer_set_anchor gtk_window GTK_LAYER_SHELL_EDGE_TOP false,
    Call.gtk_layer_set_margin gtk_window GTK_LAYER_SHELL_EDGE_BOTTOM 0,
    Call.gtk_layer_set_margin gtk_window GTK_LAYER_SHELL_EDGE_LEFT 0,
    Call.gtk_layer_set_margin gtk_window GTK_LAYER_SHELL_EDGE_RIGHT 0,
    Call.gtk_layer_auto_exclusive_zone_enable gtk_window,
    Call.gtk_layer_set_keyboard_mode gtk_window GTK_LAYER_SHELL_KEYBOARD_MODE_ON_DEMAND ]

/-- The test `monitor_index >= 0 && monitor_index < gdk_display_get_n_monitors`
with its two branches, as it stands in both arms of lines 140-148 and
161-169 of the initialization handler. -/
def assign_if_in_range (h : Host) (gtk_window : GtkWindow) (monitor_index : Int) :
    List Call :=
  if 0 ≤ monitor_index ∧ monitor_index < gdk_display_get_n_monitors h then
    [Call.gtk_layer_set_monitor gtk_window (some monitor_index)]
  else []

/-- Lines 123-174 of the initialization handler: the optional `monitor`
argument.  A string is split at its first colon and its first part parsed; an
integer is taken as it is; any other value, an absent key and a string
without a first part assign nothing. -/
def monitor_from_args (h : Host) (gtk_window : GtkWindow) (args : FlValue) : List Call :=
  match fl_value_lookup_string args "monitor" with
  | none => []
  | some (FlValue.string monitor_str) =>
    match g_strsplit monitor_str.data with
    | parts0 :: _ => assign_if_in_range h gtk_window (to_gint (g_ascii_strtoll parts0))
    | [] => []
  | some (FlValue.int v) => assign_if_in_range h gtk_window (to_gint v)
  | some _ => []

/-- The handler of the method `initialize` (the function of that name in the
source). -/
def initialize_window (h : Host) (g : Global) (self : WaylandLayerShellPlugin)
    (args : FlValue) : Outcome :=
  match get_window h self with
  | (none, self1) => (g, self1, respond_bool false)
  | (some gtk_window, self1) =>
    if h.supported = false then
      (g, self1, respond_bool false)
    else if g.initialized_windows gtk_window = some true then
      (g, self1, respond_bool true)
    else
      let g1 := g.emit (hide_and_wait h gtk_window ++ fixed_configuration gtk_window args ++
        monitor_from_args h gtk_window args)
      ({ g1 with initialized_windows :=
          fun w => if w = gtk_window then some true else g1.initialized_windows w },
        self1, respond_bool true)

/-- The function `wayland_layer_shell_plugin_dispose`. -/
def wayland_layer_shell_plugin_dispose (g : Global) (self : WaylandLayerShellPlugin) :
    Global × WaylandLayerShellPlugin :=
  match self.target_window with
  | some target =>
    ({ g with initialized_windows :=
        fun w => if w = target then none else g.initialized_windows w },
      { self with target_window := none })
  | none => (g, self)

/-- The function `wayland_layer_shell_plugin_handle_method_call`; the
response is the one handed to `fl_method_call_respond`. -/
def wayland_layer_shell_plugin_handle_method_call (h : Host) (g : Global)
    (self : WaylandLayerShellPlugin) (method : String) (args : FlValue) : Outcome :=
  if method = "getPlatformVersion" then get_platform_version h g self
  else if method = "isSupported" then is_supported h g self
  else if method = "initialize" then initialize_window h g self args
  else if method = "showWindow" then show_window h g self
  else if method = "setLayer" then set_layer h g self args
  else if method = "getLayer" then get_layer h g self
  else if method = "getMonitorList" then get_monitor_list h g self
  else if method = "setMonitor" then set_monitor h g self args
  else if method = "setAnchor" then set_anchor h g self args
  else if method = "getAnchor" then get_anchor h g self args
  else if method = "setMargin" then set_margin h g self args
  else if method = "getMargin" then get_margin h g self args
  else if method = "setExclusiveZone" then set_exclusive_zone h g self args
  else if method = "getExclusiveZone" then get_exclusive_zone h g self
  else if method = "enableAutoExclusiveZone" then enable_auto_exclusive_zone h g self
  else if method = "isAutoExclusiveZoneEnabled" then is_auto_exclusive_zone_enabled h g self
  else if method = "setKeyboardMode" then set_keyboard_mode h g self args
  else if method = "getKeyboardMode" then get_keyboard_mode h g self
  else (g, self, FlMethodResponse.not_implemented)

/-! ## Concrete hosts for the instances below -/

/-- A host whose every registrar has the view `view`, whose windows are all
mapped or all unmapped, and whose library getters answer 0 and false. -/
def sample_host (view : Option GtkWindow) (supported mapped : Bool) (rounds : Nat)
    (monitors : List String) : Host :=
  { view_toplevel := fun _ => view
    supported := supported
    mapped := fun _ => mapped
    hide_rounds := fun _ => rounds
    monitors := monitors
    uname_version := "#1 SMP"
    gtk_layer_get_layer := fun _ => 0
    gtk_layer_get_anchor := fun _ _ => false
    gtk_layer_get_margin := fun _ _ => 0
    gtk_layer_get_exclusive_zone := fun _ => 0
    gtk_layer_auto_exclusive_zone_is_enabled := fun _ => false
    gtk_layer_get_keyboard_mode := fun _ => 0 }

/-- An argument bag with a width and a height. -/
def size_args (width height : Int) : FlValue :=
  FlValue.map [(FlValue.string "width", FlValue.int width),
    (FlValue.string "height", FlValue.int height)]

/-! ## Vocabulary of the statements -/

/-- The eighteen method names of the channel `wayland_layer_shell`. -/
def method_names : List String :=
  [ "getPlatformVersion", "isSupported", "initialize", "showWindow", "setLayer", "getLayer",
    "getMonitorList", "setMonitor", "setAnchor", "getAnchor", "setMargin", "getMargin",
    "setExclusiveZone", "getExclusiveZone", "enableAutoExclusiveZone",
    "isAutoExclusiveZoneEnabled", "setKeyboardMode", "getKeyboardMode" ]

/-- A success response carrying a bool, an int, a string or a list. -/
def FlMethodResponse.is_plain_success : FlMethodResponse → Bool
  | FlMethodResponse.success (FlValue.bool _) => true
  | FlMethodResponse.success (FlValue.int _) => true
  | FlMethodResponse.success (FlValue.string _) => true
  | FlMethodResponse.success (FlValue.list _) => true
  | _ => false

/-- An error response. -/
def FlMethodResponse.is_error : FlMethodResponse → Bool
  | FlMethodResponse.error _ _ => true
  | _ => false

/-! ## Decimal rendering and parsing -/

/-- A process running the plugin: the global state and the plugin instances
created so far. -/
structure System where
  global : Global
  plugins : List WaylandLayerShellPlugin

/-- What can happen to the plugin in a process. -/
inductive Event where
  /-- The function `wayland_layer_shell_plugin_register_with_registrar`
  creates an instance for a registrar. -/
  | register (registrar : Nat)
  /-- The callback `method_call_cb` delivers a method call to an instance. -/
  | method_call (h : Host) (idx : Nat) (method : String) (args : FlValue)
  /-- The function `wayland_layer_shell_plugin_dispose` runs on an instance. -/
  | dispose (idx : Nat)

/-- Whether an event is a disposal. -/
def Event.is_dispose : Event → Bool
  | Event.dispose _ => true
  | _ => false

/-- One event; an event naming an instance that does not exist does nothing. -/
def step (s : System) : Event → System
  | Event.register registrar =>
    { s with plugins := s.plugins ++ [wayland_layer_shell_plugin_init registrar] }
  | Event.method_call h idx method args =>
    match s.plugins[idx]? with
    | none => s
    | some self =>
      let out := wayland_layer_shell_plugin_handle_method_call h s.global self method args
      { global := out.1, plugins := s.plugins.set idx out.2.1 }
  | Event.dispose idx =>
    match s.plugins[idx]? with
    | none => s
    | some self =>
      let out := wayland_layer_shell_plugin_dispose s.global self
      { global := out.1, plugins := s.plugins.set idx out.2 }

/-- The process before the plugin is registered. -/
def System.start : System :=
  { global := Global.start, plugins := [] }

/-- The state reached from the start by a sequence of events. -/
def run (events : List Event) : System :=
  events.foldl step System.start

/-- Number of `gtk_layer_init_for_window` calls issued on a window. -/
def init_count (w : GtkWindow) (trace : List Call) : Nat :=
  trace.count (Call.gtk_layer_init_for_window w)

/-- A change of global state that leaves the registry as it is and issues no
`gtk_layer_init_for_window`. -/
def Quiet (g g1 : Global) : Prop :=
  g1.initialized_windows = g.initialized_windows ∧
  ∀ w, init_count w g1.trace = init_count w g.trace

/-- A change of global state that enters `w`, not marked before, into the
registry and issues `gtk_layer_init_for_window` once, on `w`. -/
def Enters (w : GtkWindow) (g g1 : Global) : Prop :=
  g.initialized_windows w ≠ some true ∧
  g1.initialized_windows = (fun x => if x = w then some true else g.initialized_windows x) ∧
  ∀ x, init_count x g1.trace = init_count x g.trace + (if x = w then 1 else 0)

/-- The registry holds no false entry, and every window it marks has had
`gtk_layer_init_for_window` called on it at least once. -/
def RegistryInv (g : Global) : Prop :=
  (∀ w, g.initialized_windows w ≠ some false) ∧
  ∀ w, g.initialized_windows w = some true → 1 ≤ init_count w g.trace

/-- The windows the registry marks are those with exactly one
`gtk_layer_init_for_window` call; the others have none. -/
def RegistryExact (g : Global) : Prop :=
  ∀ w, init_count w g.trace = if g.initialized_windows w = some true then 1 else 0

/-! ## Vocabulary for the shape of monitor ids -/

/-- The text before the first colon of a string. -/
def before_colon (s : List Char) : List Char :=
  s.takeWhile (fun c => c != ':')

/-- Whether a text starts with a decimal integer in the sense of
`g_ascii_strtoll`: after leading white space and an optional sign comes a
digit. -/
def has_leading_integer (s : List Char) : Bool :=
  match (parse_sign (s.dropWhile ISSPACE)).2 with
  | c :: _ => decide ('0' ≤ c ∧ c ≤ '9')
  | [] => false

/-- Whether a value is a string or an integer. -/
def FlValue.is_string_or_int : FlValue → Bool
  | FlValue.string _ => true
  | FlValue.int _ => true
  | _ => false

/-! ## Accounting of removed registry entries -/

/-- The window whose registry entry (value true) the event removes in state
`s`: the cached target of the instance a disposal runs on, when the registry
marks it. -/
def erased_entry (s : System) : Event → Option GtkWindow
  | Event.dispose idx =>
    match s.plugins[idx]? with
    | none => none
    | some self =>
      match self.target_window with
      | none => none
      | some target =>
        if s.global.initialized_windows target = some true then some target else none
  | _ => none

/-- Number of times a disposal removes the entry of `w` while the events run
from state `s`. -/
def erase_count (w : GtkWindow) : System → List Event → Nat
  | _, [] => 0
  | s, e :: es => (if erased_entry s e = some w then 1 else 0) + erase_count w (step s e) es

/-- The calls of `gtk_layer_init_for_window` on each window are accounted
for: `c w` earlier ones, plus one when the registry marks the window. -/
def Accounted (c : GtkWindow → Nat) (g : Global) : Prop :=
  ∀ w, init_count w g.trace = c w + if g.initialized_windows w = some true then 1 else 0

/-! # Theorems -/

/-! ## The dispatcher -/

theorem plain_bool (b : Bool) : (respond_bool b).is_plain_success = true := rfl

theorem plain_int (v : Int) : (respond_int v).is_plain_success = true := rfl

theorem initialize_window_plain (h : Host) (g : Global) (self : WaylandLayerShellPlugin)
    (args : FlValue) : (initialize_window h g self args).2.2.is_plain_success = true := by
  unfold initialize_window
  split
  · exact plain_bool _
  · split_ifs <;> exact plain_bool _

theorem show_window_plain (h : Host) (g : Global) (self : WaylandLayerShellPlugin) :
    (show_window h g self).2.2.is_plain_success = true := by
  unfold show_window
  split <;> exact plain_bool _

theorem set_layer_plain (h : Host) (g : Global) (self : WaylandLayerShellPlugin)
    (args : FlValue) : (set_layer h g self args).2.2.is_plain_success = true := by
  unfold set_layer
  split <;> exact plain_bool _

theorem get_layer_plain (h : Host) (g : Global) (self : WaylandLayerShellPlugin) :
    (get_layer h g self).2.2.is_plain_success = true := by
  unfold get_layer
  split <;> exact plain_int _

theorem set_monitor_plain (h : Host) (g : Global) (self : WaylandLayerShellPlugin)
    (args : FlValue) : (set_monitor h g self args).2.2.is_plain_success = true := by
  unfold set_monitor
  split
  · exact plain_bool _
  · split
    · exact plain_bool _
    · split
      · exact plain_bool _
      · split_ifs <;> exact plain_bool _

theorem set_anchor_plain (h : Host) (g : Global) (self : WaylandLayerShellPlugin)
    (args : FlValue) : (set_anchor h g self args).2.2.is_plain_success = true := by
  unfold set_anchor
  split <;> exact plain_bool _

theorem get_anchor_plain (h : Host) (g : Global) (self : WaylandLayerShellPlugin)
    (args : FlValue) : (get_anchor h g self args).2.2.is_plain_success = true := by
  unfold get_anchor
  split <;> exact plain_bool _

theorem set_margin_plain (h : Host) (g : Global) (self : WaylandLayerShellPlugin)
    (args : FlValue) : (set_margin h g self args).2.2.is_plain_success = true := by
  unfold set_margin
  split <;> exact plain_bool _

theorem get_margin_plain (h : Host) (g : Global) (self : WaylandLayerShellPlugin)
    (args : FlValue) : (get_margin h g self args).2.2.is_plain_success = true := by
  unfold get_margin
  split <;> exact plain_int _

theorem set_exclusive_zone_plain (h : Host) (g : Global) (self : WaylandLayerShellPlugin)
    (args : FlValue) : (set_exclusive_zone h g self args).2.2.is_plain_success = true := by
  unfold set_exclusive_zone
  split <;> exact plain_bool _

theorem get_exclusive_zone_plain (h : Host) (g : Global) (self : WaylandLayerShellPlugin) :
    (get_exclusive_zone h g self).2.2.is_plain_success = true := by
  unfold get_exclusive_zone
  split <;> exact plain_int _

theorem enable_auto_exclusive_zone_plain (h : Host) (g : Global)
    (self : WaylandLayerShellPlugin) :
    (enable_auto_exclusive_zone h g self).2.2.is_plain_success = true := by
  unfold enable_auto_exclusive_zone
  split <;> exact plain_bool _

theorem is_auto_exclusive_zone_enabled_plain (h : Host) (g : Global)
    (self : WaylandLayerShellPlugin) :
    (is_auto_exclusive_zone_enabled h g self).2.2.is_plain_success = true := by
  unfold is_auto_exclusive_zone_enabled
  split <;> exact plain_bool _

theorem set_keyboard_mode_plain (h : Host) (g : Global) (self : WaylandLayerShellPlugin)
    (args : FlValue) : (set_keyboard_mode h g self args).2.2.is_plain_success = true := by
  unfold set_keyboard_mode
  split <;> exact plain_bool _

theorem get_keyboard_mode_plain (h : Host) (g : Global) (self : WaylandLayerShellPlugin) :
    (get_keyboard_mode h g self).2.2.is_plain_success = true := by
  unfold get_keyboard_mode
  split <;> exact plain_int _

/-- A plain success is neither the not-implemented response nor an error. -/
theorem plain_success_distinct (r : FlMethodResponse) (hr : r.is_plain_success = true) :
    r ≠ FlMethodResponse.not_implemented ∧ r.is_error = false := by
  cases r with
  | success v => exact ⟨by simp, rfl⟩
  | error c m => exact absurd hr (by simp [FlMethodResponse.is_plain_success])
  | not_implemented => exact absurd hr (by simp [FlMethodResponse.is_plain_success])

/-- The dispatcher answers a listed name with a plain success and any other
name with the not-implemented response. -/
theorem dispatch_cases (h : Host) (g : Global) (self : WaylandLayerShellPlugin)
    (method : String) (args : FlValue) :
    (method ∈ method_names ∧
      (wayland_layer_shell_plugin_handle_method_call h g self method args).2.2.is_plain_success
        = true) ∨
    (method ∉ method_names ∧
      (wayland_layer_shell_plugin_handle_method_call h g self method args).2.2 =
        FlMethodResponse.not_implemented) := by
  unfold wayland_layer_shell_plugin_handle_method_call
  by_cases h1 : method = "getPlatformVersion"
  · rw [if_pos h1]
    exact Or.inl ⟨by rw [h1]; simp [method_names], rfl⟩
  rw [if_neg h1]
  by_cases h2 : method = "isSupported"
  · rw [if_pos h2]
    exact Or.inl ⟨by rw [h2]; simp [method_names], rfl⟩
  rw [if_neg h2]
  by_cases h3 : method = "initialize"
  · rw [if_pos h3]
    exact Or.inl ⟨by rw [h3]; simp [method_names], initialize_window_plain h g self args⟩
  rw [if_neg h3]
  by_cases h4 : method = "showWindow"
  · rw [if_pos h4]
    exact Or.inl ⟨by rw [h4]; simp [method_names], show_window_plain h g self⟩
  rw [if_neg h4]
  by_cases h5 : method = "setLayer"
  · rw [if_pos h5]
    exact Or.inl ⟨by rw [h5]; simp [method_names], set_layer_plain h g self args⟩
  rw [if_neg h5]
  by_cases h6 : method = "getLayer"
  · rw [if_pos h6]
    exact Or.inl ⟨by rw [h6]; simp [method_names], get_layer_plain h g self⟩
  rw [if_neg h6]
  by_cases h7 : method = "getMonitorList"
  · rw [if_pos h7]
    exact Or.inl ⟨by rw [h7]; simp [method_names], rfl⟩
  rw [if_neg h7]
  by_cases h8 : method = "setMonitor"
  · rw [if_pos h8]
    exact Or.inl ⟨by rw [h8]; simp [method_names], set_monitor_plain h g self args⟩
  rw [if_neg h8]
  by_cases h9 : method = "setAnchor"
  · rw [if_pos h9]
    exact Or.inl ⟨by rw [h9]; simp [method_names], set_anchor_plain h g self args⟩
  rw [if_neg h9]
  by_cases h10 : method = "getAnchor"
  · rw [if_pos h10]
    exact Or.inl ⟨by rw [h10]; simp [method_names], get_anchor_plain h g self args⟩
  rw [if_neg h10]
  by_cases h11 : method = "setMargin"
  · rw [if_pos h11]
    exact Or.inl ⟨by rw [h11]; simp [method_names], set_margin_plain h g self args⟩
  rw [if_neg h11]
  by_cases h12 : method = "getMargin"
  · rw [if_pos h12]
    exact Or.inl ⟨by rw [h12]; simp [method_names], get_margin_plain h g self args⟩
  rw [if_neg h12]
  by_cases h13 : method = "setExclusiveZone"
  · rw [if_pos h13]
    exact Or.inl ⟨by rw [h13]; simp [method_names], set_exclusive_zone_plain h g self args⟩
  rw [if_neg h13]
  by_cases h14 : method = "getExclusiveZone"
  · rw [if_pos h14]
    exact Or.inl ⟨by rw [h14]; simp [method_names], get_exclusive_zone_plain h g self⟩
  rw [if_neg h14]
  by_cases h15 : method = "enableAutoExclusiveZone"
  · rw [if_pos h15]
    exact Or.inl ⟨by rw [h15]; simp [method_names], enable_auto_exclusive_zone_plain h g self⟩
  rw [if_neg h15]
  by_cases h16 : method = "isAutoExclusiveZoneEnabled"
  · rw [if_pos h16]
    exact Or.inl ⟨by rw [h16]; simp [method_names], is_auto_exclusive_zone_enabled_plain h g self⟩
  rw [if_neg h16]
  by_cases h17 : method = "setKeyboardMode"
  · rw [if_pos h17]
    exact Or.inl ⟨by rw [h17]; simp [method_names], set_keyboard_mode_plain h g self args⟩
  rw [if_neg h17]
  by_cases h18 : method = "getKeyboardMode"
  · rw [if_pos h18]
    exact Or.inl ⟨by rw [h18]; simp [method_names], get_keyboard_mode_plain h g self⟩
  rw [if_neg h18]
  refine Or.inr ⟨?_, rfl⟩
  simp only [method_names, List.mem_cons, List.mem_singleton, List.not_mem_nil, or_false, not_or]
  exact ⟨h1, h2, h3, h4, h5, h6, h7, h8, h9, h10, h11, h12, h13, h14, h15, h16, h17, h18⟩

/-- C1: for every method name and argument bag, the dispatcher responds
"not implemented" if and only if the name is not one of the eighteen listed
names; for a listed name the response is a success carrying a bool, an int, a
string or a list, and so neither "not implemented" nor an error. -/
theorem C1_not_implemented_iff_unlisted (h : Host) (g : Global)
    (self : WaylandLayerShellPlugin) (method : String) (args : FlValue) :
    ((wayland_layer_shell_plugin_handle_method_call h g self method args).2.2 =
        FlMethodResponse.not_implemented ↔ method ∉ method_names) ∧
    (method ∈ method_names →
      (wayland_layer_shell_plugin_handle_method_call h g self method args).2.2.is_plain_success
        = true ∧
      (wayland_layer_shell_plugin_handle_method_call h g self method args).2.2 ≠
        FlMethodResponse.not_implemented ∧
      (wayland_layer_shell_plugin_handle_method_call h g self method args).2.2.is_error =
        false) := by
  rcases dispatch_cases h g self method args with ⟨hin, hp⟩ | ⟨hout, hn⟩
  · have hd := plain_success_distinct _ hp
    exact ⟨⟨fun e => absurd e hd.1, fun e => absurd hin e⟩, fun _ => ⟨hp, hd.1, hd.2⟩⟩
  · exact ⟨⟨fun _ => hout, fun _ => hn⟩, fun hin => absurd hin hout⟩

/-! ## Window resolution -/

/-- Without a cached window and without a view, no window resolves and the
instance is left as it is. -/
theorem get_window_unresolved (h : Host) (self : WaylandLayerShellPlugin)
    (hc : self.target_window = none) (hv : h.view_toplevel self.registrar = none) :
    get_window h self = (none, self) := by
  unfold get_window
  rw [hc]
  simp only [hv]

/-- A resolved window is cached: the returned instance resolves to the same
window under any host, and is returned unchanged. -/
theorem get_window_cached (h h2 : Host) (self : WaylandLayerShellPlugin) (w : GtkWindow)
    (hw : (get_window h self).1 = some w) :
    (get_window h self).2.target_window = some w ∧
    get_window h2 (get_window h self).2 = (some w, (get_window h self).2) := by
  unfold get_window at hw ⊢
  cases hc : self.target_window with
  | some t =>
    simp only [hc] at hw ⊢
    simp only [Option.some.injEq] at hw
    subst hw
    simp [hc]
  | none =>
    simp only [hc] at hw ⊢
    cases hv : h.view_toplevel self.registrar with
    | none => simp [hv] at hw
    | some v =>
      simp only [hv] at hw ⊢
      simp only [Option.some.injEq] at hw
      subst hw
      simp

/-- Splitting the result of `get_window` into its two components. -/
theorem get_window_eq (h : Host) (self : WaylandLayerShellPlugin) (w : GtkWindow)
    (hw : (get_window h self).1 = some w) :
    get_window h self = (some w, (get_window h self).2) := by
  rw [← hw]

/-! ## The initialization handler -/

/-- The three outcomes of the initialization handler on a resolved window. -/
theorem initialize_window_resolved (h : Host) (g : Global) (self : WaylandLayerShellPlugin)
    (args : FlValue) (w : GtkWindow) (hw : (get_window h self).1 = some w) :
    initialize_window h g self args =
      if h.supported = false then (g, (get_window h self).2, respond_bool false)
      else if g.initialized_windows w = some true then
        (g, (get_window h self).2, respond_bool true)
      else
        ({ initialized_windows :=
              fun x => if x = w then some true else g.initialized_windows x,
           trace := g.trace ++ (hide_and_wait h w ++ fixed_configuration w args ++
              monitor_from_args h w args) },
          (get_window h self).2, respond_bool true) := by
  unfold initialize_window
  rw [get_window_eq h self w hw]
  rfl

/-- C2: on a supported platform, calling the initialization handler twice in
succession on an instance whose window resolves returns true both times; the
second call, whatever its arguments, issues no call and leaves the registry
and the instance unchanged, so that after both calls the configuration has
been applied once, with the arguments of the first call (or not at all when
the window was already in the registry). -/
theorem C2_second_initialize_short_circuits (h1 h2 : Host) (g : Global)
    (self : WaylandLayerShellPlugin) (args1 args2 : FlValue) (w : GtkWindow)
    (hw : (get_window h1 self).1 = some w)
    (hs1 : h1.supported = true) (hs2 : h2.supported = true) :
    (initialize_window h1 g self args1).2.2 = respond_bool true ∧
    initialize_window h2 (initialize_window h1 g self args1).1
        (initialize_window h1 g self args1).2.1 args2 =
      ((initialize_window h1 g self args1).1, (initialize_window h1 g self args1).2.1,
        respond_bool true) ∧
    (initialize_window h1 g self args1).1.initialized_windows w = some true ∧
    (initialize_window h2 (initialize_window h1 g self args1).1
        (initialize_window h1 g self args1).2.1 args2).1.trace =
      g.trace ++
        (if g.initialized_windows w = some true then []
         else hide_and_wait h1 w ++ fixed_configuration w args1 ++
           monitor_from_args h1 w args1) := by
  have hc := get_window_cached h1 h2 self w hw
  have e1 := initialize_window_resolved h1 g self args1 w hw
  have hw2 : (get_window h2 (get_window h1 self).2).1 = some w := by rw [hc.2]
  have hself : (get_window h2 (get_window h1 self).2).2 = (get_window h1 self).2 := by
    rw [hc.2]
  by_cases hi : g.initialized_windows w = some true
  · rw [if_neg (by simp [hs1]), if_pos hi] at e1
    have e2 := initialize_window_resolved h2 g (get_window h1 self).2 args2 w hw2
    rw [if_neg (by simp [hs2]), if_pos hi, hself] at e2
    rw [e1]
    simp only [e2, hi, if_true, List.append_nil, and_self]
  · rw [if_neg (by simp [hs1]), if_neg hi] at e1
    have e2 := initialize_window_resolved h2 (initialize_window h1 g self args1).1
      (get_window h1 self).2 args2 w hw2
    rw [e1] at e2 ⊢
    rw [if_neg (by simp [hs2]), if_pos (by simp), hself] at e2
    simp only [e2, hi, if_false, if_true, and_self]

/-- C2 applied to a mapped window and two different argument bags. -/
theorem C2_second_initialize_short_circuits_witness :
    (get_window (sample_host (some 7) true true 2 ["A", "B"]) ⟨0, none⟩).1 = some 7 ∧
    (initialize_window (sample_host none true false 0 [])
        (initialize_window (sample_host (some 7) true true 2 ["A", "B"]) Global.start
          ⟨0, none⟩ (size_args 800 40)).1
        (initialize_window (sample_host (some 7) true true 2 ["A", "B"]) Global.start
          ⟨0, none⟩ (size_args 800 40)).2.1
        (FlValue.map [(FlValue.string "width", FlValue.int 1024),
          (FlValue.string "height", FlValue.int 64),
          (FlValue.string "monitor", FlValue.int 1)])).1.trace =
      Global.start.trace ++
        (if Global.start.initialized_windows 7 = some true then []
         else hide_and_wait (sample_host (some 7) true true 2 ["A", "B"]) 7 ++
           fixed_configuration 7 (size_args 800 40) ++
           monitor_from_args (sample_host (some 7) true true 2 ["A", "B"]) 7
             (size_args 800 40)) :=
  ⟨rfl, (C2_second_initialize_short_circuits
    (sample_host (some 7) true true 2 ["A", "B"]) (sample_host none true false 0 [])
    Global.start ⟨0, none⟩ (size_args 800 40)
    (FlValue.map [(FlValue.string "width", FlValue.int 1024),
      (FlValue.string "height", FlValue.int 64), (FlValue.string "monitor", FlValue.int 1)])
    7 rfl rfl rfl).2.2.2⟩

/-- C3: the initialization handler returns a success carrying false when no
window resolves or when the platform reports layer-shell unsupported; in both
cases, mapped window or not, it issues no call on the window and leaves the
registry untouched. -/
theorem C3_initialize_early_false (h : Host) (g : Global) (self : WaylandLayerShellPlugin)
    (args : FlValue) (hf : (get_window h self).1 = none ∨ h.supported = false) :
    (initialize_window h g self args).2.2 = respond_bool false ∧
    (initialize_window h g self args).1 = g := by
  unfold initialize_window
  split
  · exact ⟨rfl, rfl⟩
  · rename_i w self1 heq
    rcases hf with hn | hu
    · rw [heq] at hn
      exact absurd hn (by simp)
    · rw [if_pos hu]
      exact ⟨rfl, rfl⟩

/-- C3 applied to a mapped window on an unsupported platform. -/
theorem C3_initialize_early_false_witness :
    ((get_window (sample_host (some 7) false true 0 ["A"]) ⟨0, none⟩).1 = none ∨
      (sample_host (some 7) false true 0 ["A"]).supported = false) ∧
    (initialize_window (sample_host (some 7) false true 0 ["A"]) Global.start ⟨0, none⟩
      (size_args 800 40)).2.2 = respond_bool false ∧
    (initialize_window (sample_host (some 7) false true 0 ["A"]) Global.start ⟨0, none⟩
      (size_args 800 40)).1 = Global.start :=
  ⟨Or.inr rfl, C3_initialize_early_false (sample_host (some 7) false true 0 ["A"])
    Global.start ⟨0, none⟩ (size_args 800 40) (Or.inr rfl)⟩

/-! ## Handlers on an instance without a window -/

/-- C4: when no window resolves (no cached target window and no view), every
per-attribute operation returns its default, issues no call and changes
nothing, whatever its arguments: false for the setters, for `show_window`,
`get_anchor` and `is_auto_exclusive_zone_enabled`; 0 for `get_layer`,
`get_margin`, `get_exclusive_zone` and `get_keyboard_mode`. -/
theorem C4_unresolved_window_defaults (h : Host) (g : Global)
    (self : WaylandLayerShellPlugin)
    (hc : self.target_window = none) (hv : h.view_toplevel self.registrar = none) :
    (∀ args, set_layer h g self args = (g, self, respond_bool false)) ∧
    (∀ args, set_monitor h g self args = (g, self, respond_bool false)) ∧
    (∀ args, set_anchor h g self args = (g, self, respond_bool false)) ∧
    (∀ args, set_margin h g self args = (g, self, respond_bool false)) ∧
    (∀ args, set_exclusive_zone h g self args = (g, self, respond_bool false)) ∧
    enable_auto_exclusive_zone h g self = (g, self, respond_bool false) ∧
    (∀ args, set_keyboard_mode h g self args = (g, self, respond_bool false)) ∧
    show_window h g self = (g, self, respond_bool false) ∧
    (∀ args, get_anchor h g self args = (g, self, respond_bool false)) ∧
    is_auto_exclusive_zone_enabled h g self = (g, self, respond_bool false) ∧
    get_layer h g self = (g, self, respond_int 0) ∧
    (∀ args, get_margin h g self args = (g, self, respond_int 0)) ∧
    get_exclusive_zone h g self = (g, self, respond_int 0) ∧
    get_keyboard_mode h g self = (g, self, respond_int 0) := by
  have e := get_window_unresolved h self hc hv
  refine ⟨?_, ?_, ?_, ?_, ?_, ?_, ?_, ?_, ?_, ?_, ?_, ?_, ?_, ?_⟩
  · intro args; unfold set_layer; rw [e]
  · intro args; unfold set_monitor; rw [e]
  · intro args; unfold set_anchor; rw [e]
  · intro args; unfold set_margin; rw [e]
  · intro args; unfold set_exclusive_zone; rw [e]
  · unfold enable_auto_exclusive_zone; rw [e]
  · intro args; unfold set_keyboard_mode; rw [e]
  · unfold show_window; rw [e]
  · intro args; unfold get_anchor; rw [e]
  · unfold is_auto_exclusive_zone_enabled; rw [e]
  · unfold get_layer; rw [e]
  · intro args; unfold get_margin; rw [e]
  · unfold get_exclusive_zone; rw [e]
  · unfold get_keyboard_mode; rw [e]

/-- C4 applied to a fresh instance whose registrar has no view. -/
theorem C4_unresolved_window_defaults_witness :
    (wayland_layer_shell_plugin_init 0).target_window = none ∧
    (sample_host none true false 0 ["A"]).view_toplevel
      (wayland_layer_shell_plugin_init 0).registrar = none ∧
    get_layer (sample_host none true false 0 ["A"]) Global.start
      (wayland_layer_shell_plugin_init 0) =
      (Global.start, wayland_layer_shell_plugin_init 0, respond_int 0) :=
  ⟨rfl, rfl, (C4_unresolved_window_defaults (sample_host none true false 0 ["A"])
    Global.start (wayland_layer_shell_plugin_init 0) rfl rfl).2.2.2.2.2.2.2.2.2.2.1⟩

/-! ## Monitor selection -/

/-- The handler `set_monitor` once the window and the index are resolved. -/
theorem set_monitor_resolved (h : Host) (g : Global) (self : WaylandLayerShellPlugin)
    (args monitor_value : FlValue) (w : GtkWindow) (k : Int)
    (hw : (get_window h self).1 = some w)
    (hid : fl_value_lookup_string args "id" = some monitor_value)
    (hk : set_monitor_index monitor_value = some k) :
    set_monitor h g self args =
      if k = -1 then
        (g.emit [Call.gtk_layer_set_monitor w none], (get_window h self).2, respond_bool true)
      else if 0 ≤ k ∧ k < gdk_display_get_n_monitors h then
        (g.emit [Call.gtk_layer_set_monitor w (some k)], (get_window h self).2,
          respond_bool true)
      else (g, (get_window h self).2, respond_bool false) := by
  unfold set_monitor
  rw [get_window_eq h self w hw]
  simp only [hid, hk]

/-- C5: `set_monitor` on a resolved window with n attached monitors and an
id resolving to index k: for k = -1 the assignment is cleared
(`gtk_layer_set_monitor` with `NULL`) and the result is true; for
0 <= k < n monitor k is assigned and the result is true; for every other k
(k < -1 or k >= n) the result is false and no call is issued. -/
theorem C5_set_monitor_by_index (h : Host) (g : Global) (self : WaylandLayerShellPlugin)
    (args monitor_value : FlValue) (w : GtkWindow) (k : Int)
    (hw : (get_window h self).1 = some w)
    (hid : fl_value_lookup_string args "id" = some monitor_value)
    (hk : set_monitor_index monitor_value = some k) :
    (k = -1 → set_monitor h g self args =
      (g.emit [Call.gtk_layer_set_monitor w none], (get_window h self).2,
        respond_bool true)) ∧
    (0 ≤ k ∧ k < (h.monitors.length : Int) → set_monitor h g self args =
      (g.emit [Call.gtk_layer_set_monitor w (some k)], (get_window h self).2,
        respond_bool true)) ∧
    (k < -1 ∨ (h.monitors.length : Int) ≤ k → set_monitor h g self args =
      (g, (get_window h self).2, respond_bool false)) := by
  rw [set_monitor_resolved h g self args monitor_value w k hw hid hk]
  unfold gdk_display_get_n_monitors
  refine ⟨?_, ?_, ?_⟩
  · intro h1
    rw [if_pos h1]
  · intro h2
    rw [if_neg (by omega), if_pos h2]
  · intro h3
    rw [if_neg (by omega), if_neg (by omega)]

/-- C5 applied to an integer id equal to the number of monitors. -/
theorem C5_set_monitor_by_index_witness :
    (get_window (sample_host (some 7) true false 0 ["A", "B"]) ⟨0, none⟩).1 = some 7 ∧
    fl_value_lookup_string (FlValue.map [(FlValue.string "id", FlValue.int 2)]) "id" =
      some (FlValue.int 2) ∧
    set_monitor_index (FlValue.int 2) = some 2 ∧
    set_monitor (sample_host (some 7) true false 0 ["A", "B"]) Global.start ⟨0, none⟩
        (FlValue.map [(FlValue.string "id", FlValue.int 2)]) =
      (Global.start, (get_window (sample_host (some 7) true false 0 ["A", "B"]) ⟨0, none⟩).2,
        respond_bool false) :=
  ⟨rfl, rfl, rfl, (C5_set_monitor_by_index (sample_host (some 7) true false 0 ["A", "B"])
    Global.start ⟨0, none⟩ (FlValue.map [(FlValue.string "id", FlValue.int 2)])
    (FlValue.int 2) 7 2 rfl rfl rfl).2.2 (Or.inr (by decide))⟩

/-! ## Decimal rendering and parsing -/

/-- C7: disposing an instance whose target window is cached removes that
window's entry from the registry and clears the cached window, leaving every
other entry (and the trace) unchanged; a later initialization on a supported
platform, by any instance that resolves to that window or to a window without
an entry, is not short-circuited: it applies the full configuration with the
size requested by that call, marks the window initialized and returns true. -/
theorem C7_dispose_unregisters (h : Host) (g : Global) (self : WaylandLayerShellPlugin)
    (target : GtkWindow) (ht : self.target_window = some target) :
    (wayland_layer_shell_plugin_dispose g self).1.initialized_windows target = none ∧
    (wayland_layer_shell_plugin_dispose g self).2.target_window = none ∧
    (∀ w, w ≠ target →
      (wayland_layer_shell_plugin_dispose g self).1.initialized_windows w =
        g.initialized_windows w) ∧
    (wayland_layer_shell_plugin_dispose g self).1.trace = g.trace ∧
    (∀ (p : WaylandLayerShellPlugin) (w : GtkWindow) (args : FlValue),
      (get_window h p).1 = some w → h.supported = true →
      (w = target ∨ g.initialized_windows w = none) →
      initialize_window h (wayland_layer_shell_plugin_dispose g self).1 p args =
        ({ initialized_windows := fun x =>
              if x = w then some true
              else (wayland_layer_shell_plugin_dispose g self).1.initialized_windows x,
           trace := g.trace ++ (hide_and_wait h w ++ fixed_configuration w args ++
              monitor_from_args h w args) },
          (get_window h p).2, respond_bool true) ∧
      Call.gtk_widget_set_size_request w
          (to_gint (fl_value_get_int (fl_value_lookup_string args "width")))
          (to_gint (fl_value_get_int (fl_value_lookup_string args "height"))) ∈
        fixed_configuration w args ∧
      Call.gtk_layer_init_for_window w ∈ fixed_configuration w args) := by
  have hd : wayland_layer_shell_plugin_dispose g self =
      ({ g with initialized_windows :=
          fun w => if w = target then none else g.initialized_windows w },
        { self with target_window := none }) := by
    unfold wayland_layer_shell_plugin_dispose
    rw [ht]
  rw [hd]
  refine ⟨by simp, rfl, fun w hw => by simp [hw], rfl, ?_⟩
  intro p w args hw hs hfresh
  refine ⟨?_, by simp [fixed_configuration], by simp [fixed_configuration]⟩
  rw [initialize_window_resolved h _ p args w hw, if_neg (by simp [hs]), if_neg]
  simp only
  rcases hfresh with e | e
  · simp [e]
  · by_cases hwt : w = target
    · simp [hwt]
    · simp [hwt, e]

/-- C7 applied to an instance caching window 7, which is in the registry. -/
theorem C7_dispose_unregisters_witness :
    (⟨0, some 7⟩ : WaylandLayerShellPlugin).target_window = some 7 ∧
    (wayland_layer_shell_plugin_dispose
      { initialized_windows := fun w => if w = 7 then some true else none, trace := [] }
      ⟨0, some 7⟩).1.initialized_windows 7 = none :=
  ⟨rfl, (C7_dispose_unregisters (sample_host (some 7) true false 0 [])
    { initialized_windows := fun w => if w = 7 then some true else none, trace := [] }
    ⟨0, some 7⟩ 7 rfl).1⟩

/-! ## Missing argument keys -/

/-- C8 fails as stated: `set_layer` on a resolved window with an empty
argument bag (no key `layer`) calls `gtk_layer_set_layer` with layer 0 and
responds true, not false. -/
theorem C8_missing_key_counterexample :
    (get_window (sample_host (some 7) true false 0 []) ⟨0, none⟩).1 = some 7 ∧
    fl_value_lookup_string (FlValue.map []) "layer" = none ∧
    set_layer (sample_host (some 7) true false 0 []) Global.start ⟨0, none⟩ (FlValue.map []) =
      ({ initialized_windows := Global.start.initialized_windows,
         trace := [Call.gtk_layer_set_layer 7 0] },
        ⟨0, some 7⟩, respond_bool true) ∧
    respond_bool true ≠ respond_bool false :=
  ⟨rfl, rfl, rfl, by simp [respond_bool]⟩

/-- C8 as amended: on a resolved window, only `set_monitor` reports a missing
key (`id`) as false, without a library call.  The other handlers do not
detect a missing key: the absent integer is read as 0 (an absent
`anchor_to_edge` as false), the library call is issued with that value, the
setters respond true, `get_anchor` and `get_margin` respond with the
library's answer for edge 0, and the initialization handler (supported
platform, window not yet initialized) requests the size with 0 in place of
the missing dimension and responds true. -/
theorem C8_missing_key_amended (h : Host) (g : Global) (self : WaylandLayerShellPlugin)
    (args : FlValue) (w : GtkWindow) (hw : (get_window h self).1 = some w) :
    (fl_value_lookup_string args "id" = none →
      set_monitor h g self args = (g, (get_window h self).2, respond_bool false)) ∧
    (fl_value_lookup_string args "layer" = none →
      set_layer h g self args =
        (g.emit [Call.gtk_layer_set_layer w 0], (get_window h self).2, respond_bool true)) ∧
    (fl_value_lookup_string args "edge" = none →
      set_anchor h g self args =
        (g.emit [Call.gtk_layer_set_anchor w 0
          (fl_value_get_bool (fl_value_lookup_string args "anchor_to_edge"))],
          (get_window h self).2, respond_bool true)) ∧
    (fl_value_lookup_string args "anchor_to_edge" = none →
      set_anchor h g self args =
        (g.emit [Call.gtk_layer_set_anchor w
          (to_gint (fl_value_get_int (fl_value_lookup_string args "edge"))) false],
          (get_window h self).2, respond_bool true)) ∧
    (fl_value_lookup_string args "edge" = none →
      get_anchor h g self args =
        (g.emit [Call.gtk_layer_get_anchor w 0], (get_window h self).2,
          respond_bool (h.gtk_layer_get_anchor w 0))) ∧
    (fl_value_lookup_string args "edge" = none →
      set_margin h g self args =
        (g.emit [Call.gtk_layer_set_margin w 0
          (to_gint (fl_value_get_int (fl_value_lookup_string args "margin_size")))],
          (get_window h self).2, respond_bool true)) ∧
    (fl_value_lookup_string args "margin_size" = none →
      set_margin h g self args =
        (g.emit [Call.gtk_layer_set_margin w
          (to_gint (fl_value_get_int (fl_value_lookup_string args "edge"))) 0],
          (get_window h self).2, respond_bool true)) ∧
    (fl_value_lookup_string args "edge" = none →
      get_margin h g self args =
        (g.emit [Call.gtk_layer_get_margin w 0], (get_window h self).2,
          respond_int (h.gtk_layer_get_margin w 0))) ∧
    (fl_value_lookup_string args "exclusive_zone" = none →
      set_exclusive_zone h g self args =
        (g.emit [Call.gtk_layer_set_exclusive_zone w 0], (get_window h self).2,
          respond_bool true)) ∧
    (fl_value_lookup_string args "keyboard_mode" = none →
      set_keyboard_mode h g self args =
        (g.emit [Call.gtk_layer_set_keyboard_mode w 0], (get_window h self).2,
          respond_bool true)) ∧
    (h.supported = true → g.initialized_windows w ≠ some true →
      (initialize_window h g self args).2.2 = respond_bool true ∧
      (fl_value_lookup_string args "width" = none →
        Call.gtk_widget_set_size_request w 0
            (to_gint (fl_value_get_int (fl_value_lookup_string args "height"))) ∈
          (initialize_window h g self args).1.trace) ∧
      (fl_value_lookup_string args "height" = none →
        Call.gtk_widget_set_size_request w
            (to_gint (fl_value_get_int (fl_value_lookup_string args "width"))) 0 ∈
          (initialize_window h g self args).1.trace)) := by
  have e := get_window_eq h self w hw
  have z : to_gint (fl_value_get_int none) = 0 := by decide
  refine ⟨?_, ?_, ?_, ?_, ?_, ?_, ?_, ?_, ?_, ?_, ?_⟩
  · intro hk; unfold set_monitor; rw [e]; simp only [hk]
  · intro hk; unfold set_layer; rw [e]; simp only [hk, z]
  · intro hk; unfold set_anchor; rw [e]; simp only [hk, z]
  · intro hk; unfold set_anchor; rw [e]; simp only [hk, fl_value_get_bool]
  · intro hk; unfold get_anchor; rw [e]; simp only [hk, z]
  · intro hk; unfold set_margin; rw [e]; simp only [hk, z]
  · intro hk; unfold set_margin; rw [e]; simp only [hk, z]
  · intro hk; unfold get_margin; rw [e]; simp only [hk, z]
  · intro hk; unfold set_exclusive_zone; rw [e]; simp only [hk, z]
  · intro hk; unfold set_keyboard_mode; rw [e]; simp only [hk, z]
  · intro hs hi
    rw [initialize_window_resolved h g self args w hw, if_neg (by simp [hs]), if_neg hi]
    refine ⟨rfl, ?_, ?_⟩
    · intro hk
      simp [fixed_configuration, hk, z]
    · intro hk
      simp [fixed_configuration, hk, z]

/-- C8 as amended, applied to a resolved window and an empty argument bag. -/
theorem C8_missing_key_amended_witness :
    (get_window (sample_host (some 7) true false 0 []) ⟨0, none⟩).1 = some 7 ∧
    set_monitor (sample_host (some 7) true false 0 []) Global.start ⟨0, none⟩
        (FlValue.map []) =
      (Global.start, (get_window (sample_host (some 7) true false 0 []) ⟨0, none⟩).2,
        respond_bool false) :=
  ⟨rfl, (C8_missing_key_amended (sample_host (some 7) true false 0 []) Global.start ⟨0, none⟩
    (FlValue.map []) 7 rfl).1 rfl⟩

/-! ## The monitor argument of the initialization handler -/

/-- The monitor part of the initialization in terms of the index the
argument resolves to. -/
theorem monitor_from_args_index (h : Host) (w : GtkWindow) (args monitor_value : FlValue)
    (k : Int) (hm : fl_value_lookup_string args "monitor" = some monitor_value)
    (hk : set_monitor_index monitor_value = some k) :
    monitor_from_args h w args = assign_if_in_range h w k ∨
    (k = -1 ∧ monitor_from_args h w args = []) := by
  unfold monitor_from_args
  rw [hm]
  unfold set_monitor_index at hk
  cases monitor_value with
  | string s =>
    simp only at hk ⊢
    cases hp : g_strsplit s.data with
    | nil =>
      rw [hp] at hk
      simp only [Option.some.injEq] at hk
      exact Or.inr ⟨hk.symm, rfl⟩
    | cons parts0 rest =>
      rw [hp] at hk
      simp only [Option.some.injEq] at hk
      subst hk
      exact Or.inl rfl
  | int v =>
    simp only [Option.some.injEq] at hk
    subst hk
    exact Or.inl rfl
  | null => simp at hk
  | bool b => simp at hk
  | list xs => simp at hk
  | map kvs => simp at hk
  | other t => simp at hk

/-- C9 fails as stated: on a resolved, supported, not yet initialized window
with one monitor, the initialization with the out-of-range monitor index 5
responds true, not false. -/
theorem C9_initialize_bad_monitor_counterexample :
    (get_window (sample_host (some 7) true false 0 ["A"]) ⟨0, none⟩).1 = some 7 ∧
    Global.start.initialized_windows 7 = none ∧
    set_monitor_index (FlValue.int 5) = some 5 ∧
    (initialize_window (sample_host (some 7) true false 0 ["A"]) Global.start ⟨0, none⟩
      (FlValue.map [(FlValue.string "width", FlValue.int 800),
        (FlValue.string "height", FlValue.int 40),
        (FlValue.string "monitor", FlValue.int 5)])).2.2 = respond_bool true ∧
    respond_bool true ≠ respond_bool false :=
  ⟨rfl, rfl, rfl, rfl, by simp [respond_bool]⟩

/-- C9 as amended: the initialization of a resolved, supported, not yet
initialized window with n attached monitors, whose monitor argument (string
or integer) resolves to index k.  For k out of range (negative, including
-1, or >= n) no monitor is assigned (no `gtk_layer_set_monitor` call), and
the call still completes: it marks the window initialized and responds true.
For 0 <= k < n monitor k is assigned, as the last call. -/
theorem C9_initialize_monitor_amended (h : Host) (g : Global)
    (self : WaylandLayerShellPlugin) (args monitor_value : FlValue) (w : GtkWindow) (k : Int)
    (hw : (get_window h self).1 = some w) (hs : h.supported = true)
    (hi : g.initialized_windows w ≠ some true)
    (hm : fl_value_lookup_string args "monitor" = some monitor_value)
    (hk : set_monitor_index monitor_value = some k) :
    (k < 0 ∨ (h.monitors.length : Int) ≤ k →
      initialize_window h g self args =
        ({ initialized_windows := fun x => if x = w then some true else g.initialized_windows x,
           trace := g.trace ++ (hide_and_wait h w ++ fixed_configuration w args) },
          (get_window h self).2, respond_bool true)) ∧
    (0 ≤ k ∧ k < (h.monitors.length : Int) →
      initialize_window h g self args =
        ({ initialized_windows := fun x => if x = w then some true else g.initialized_windows x,
           trace := g.trace ++ (hide_and_wait h w ++ fixed_configuration w args ++
              [Call.gtk_layer_set_monitor w (some k)]) },
          (get_window h self).2, respond_bool true)) := by
  rw [initialize_window_resolved h g self args w hw, if_neg (by simp [hs]), if_neg hi]
  have hmon := monitor_from_args_index h w args monitor_value k hm hk
  unfold assign_if_in_range gdk_display_get_n_monitors at hmon
  constructor
  · intro hout
    have e : monitor_from_args h w args = [] := by
      rcases hmon with e | ⟨_, e⟩
      · rw [e, if_neg (by omega)]
      · exact e
    rw [e, List.append_nil]
  · intro hin
    have e : monitor_from_args h w args = [Call.gtk_layer_set_monitor w (some k)] := by
      rcases hmon with e | ⟨e1, _⟩
      · rw [e, if_pos hin]
      · omega
    rw [e]

/-- C9 as amended, applied to the integer monitor index 5 with one monitor. -/
theorem C9_initialize_monitor_amended_witness :
    (get_window (sample_host (some 7) true true 1 ["A"]) ⟨0, none⟩).1 = some 7 ∧
    (sample_host (some 7) true true 1 ["A"]).supported = true ∧
    Global.start.initialized_windows 7 ≠ some true ∧
    (initialize_window (sample_host (some 7) true true 1 ["A"]) Global.start ⟨0, none⟩
      (FlValue.map [(FlValue.string "monitor", FlValue.int 5)])).1.trace =
      Call.gtk_widget_hide 7 :: Call.gtk_main_iteration_do ::
        fixed_configuration 7 (FlValue.map [(FlValue.string "monitor", FlValue.int 5)]) :=
  ⟨rfl, rfl, by simp [Global.start],
    congrArg (fun o : Outcome => o.1.trace)
      ((C9_initialize_monitor_amended (sample_host (some 7) true true 1 ["A"]) Global.start
        ⟨0, none⟩ (FlValue.map [(FlValue.string "monitor", FlValue.int 5)]) (FlValue.int 5)
        7 5 rfl rfl (by simp [Global.start]) rfl rfl).1 (Or.inr (by decide)))⟩

/-! ## The process: several instances over one registry -/

theorem quiet_refl (g : Global) : Quiet g g := ⟨rfl, fun _ => rfl⟩

theorem quiet_emit (g : Global) (c : Call) (hc : ∀ w, c ≠ Call.gtk_layer_init_for_window w) :
    Quiet g (g.emit [c]) := by
  refine ⟨rfl, fun w => ?_⟩
  unfold init_count Global.emit
  simp only [List.count_append, List.count_cons, List.count_nil]
  have : (c == Call.gtk_layer_init_for_window w) = false := by
    simpa using hc w
  simp [this]

theorem show_window_quiet (h : Host) (g : Global) (self : WaylandLayerShellPlugin) :
    Quiet g (show_window h g self).1 := by
  unfold show_window
  split
  · exact quiet_refl g
  · exact quiet_emit g _ (by intro w; simp)

theorem set_layer_quiet (h : Host) (g : Global) (self : WaylandLayerShellPlugin) (args : FlValue) :
    Quiet g (set_layer h g self args).1 := by
  unfold set_layer
  split
  · exact quiet_refl g
  · exact quiet_emit g _ (by intro w; simp)

theorem get_layer_quiet (h : Host) (g : Global) (self : WaylandLayerShellPlugin) :
    Quiet g (get_layer h g self).1 := by
  unfold get_layer
  split
  · exact quiet_refl g
  · exact quiet_emit g _ (by intro w; simp)

theorem set_anchor_quiet (h : Host) (g : Global) (self : WaylandLayerShellPlugin) (args : FlValue) :
    Quiet g (set_anchor h g self args).1 := by
  unfold set_anchor
  split
  · exact quiet_refl g
  · exact quiet_emit g _ (by intro w; simp)

theorem get_anchor_quiet (h : Host) (g : Global) (self : WaylandLayerShellPlugin) (args : FlValue) :
    Quiet g (get_anchor h g self args).1 := by
  unfold get_anchor
  split
  · exact quiet_refl g
  · exact quiet_emit g _ (by intro w; simp)

theorem set_margin_quiet (h : Host) (g : Global) (self : WaylandLayerShellPlugin) (args : FlValue) :
    Quiet g (set_margin h g self args).1 := by
  unfold set_margin
  split
  · exact quiet_refl g
  · exact quiet_emit g _ (by intro w; simp)

theorem get_margin_quiet (h : Host) (g : Global) (self : WaylandLayerShellPlugin) (args : FlValue) :
    Quiet g (get_margin h g self args).1 := by
  unfold get_margin
  split
  · exact quiet_refl g
  · exact quiet_emit g _ (by intro w; simp)

theorem set_exclusive_zone_quiet (h : Host) (g : Global) (self : WaylandLayerShellPlugin) (args : FlValue) :
    Quiet g (set_exclusive_zone h g self args).1 := by
  unfold set_exclusive_zone
  split
  · exact quiet_refl g
  · exact quiet_emit g _ (by intro w; simp)

theorem get_exclusive_zone_quiet (h : Host) (g : Global) (self : WaylandLayerShellPlugin) :
    Quiet g (get_exclusive_zone h g self).1 := by
  unfold get_exclusive_zone
  split
  · exact quiet_refl g
  · exact quiet_emit g _ (by intro w; simp)

theorem enable_auto_exclusive_zone_quiet (h : Host) (g : Global) (self : WaylandLayerShellPlugin) :
    Quiet g (enable_auto_exclusive_zone h g self).1 := by
  unfold enable_auto_exclusive_zone
  split
  · exact quiet_refl g
  · exact quiet_emit g _ (by intro w; simp)

theorem is_auto_exclusive_zone_enabled_quiet (h : Host) (g : Global) (self : WaylandLayerShellPlugin) :
    Quiet g (is_auto_exclusive_zone_enabled h g self).1 := by
  unfold is_auto_exclusive_zone_enabled
  split
  · exact quiet_refl g
  · exact quiet_emit g _ (by intro w; simp)

theorem set_keyboard_mode_quiet (h : Host) (g : Global) (self : WaylandLayerShellPlugin) (args : FlValue) :
    Quiet g (set_keyboard_mode h g self args).1 := by
  unfold set_keyboard_mode
  split
  · exact quiet_refl g
  · exact quiet_emit g _ (by intro w; simp)

theorem get_keyboard_mode_quiet (h : Host) (g : Global) (self : WaylandLayerShellPlugin) :
    Quiet g (get_keyboard_mode h g self).1 := by
  unfold get_keyboard_mode
  split
  · exact quiet_refl g
  · exact quiet_emit g _ (by intro w; simp)

theorem set_monitor_quiet (h : Host) (g : Global) (self : WaylandLayerShellPlugin)
    (args : FlValue) : Quiet g (set_monitor h g self args).1 := by
  unfold set_monitor
  split
  · exact quiet_refl g
  · split
    · exact quiet_refl g
    · split
      · exact quiet_refl g
      · split_ifs
        · exact quiet_emit g _ (by intro w; simp)
        · exact quiet_emit g _ (by intro w; simp)
        · exact quiet_refl g

theorem init_count_hide_and_wait (h : Host) (w x : GtkWindow) :
    init_count x (hide_and_wait h w) = 0 := by
  unfold init_count hide_and_wait
  split_ifs
  · rw [List.count_cons, List.count_replicate]
    simp
  · rfl

theorem init_count_fixed_configuration (w x : GtkWindow) (args : FlValue) :
    init_count x (fixed_configuration w args) = if x = w then 1 else 0 := by
  unfold init_count fixed_configuration
  by_cases hx : x = w
  · simp [List.count_cons, hx]
  · have : ¬ w = x := fun e => hx e.symm
    simp [List.count_cons, hx, this]

theorem init_count_monitor_from_args (h : Host) (w x : GtkWindow) (args : FlValue) :
    init_count x (monitor_from_args h w args) = 0 := by
  have key : ∀ k, init_count x (assign_if_in_range h w k) = 0 := by
    intro k
    unfold init_count assign_if_in_range
    split_ifs
    · simp [List.count_cons]
    · rfl
  unfold monitor_from_args
  split
  · rfl
  · split
    · exact key _
    · rfl
  · exact key _
  · rfl

theorem init_count_append (x : GtkWindow) (a b : List Call) :
    init_count x (a ++ b) = init_count x a + init_count x b := by
  unfold init_count
  exact List.count_append _ _ _

/-- The initialization handler either changes nothing relevant or enters one
window, not marked before, into the registry with one layer-shell init. -/
theorem initialize_window_effect (h : Host) (g : Global) (self : WaylandLayerShellPlugin)
    (args : FlValue) :
    Quiet g (initialize_window h g self args).1 ∨
    ∃ w, Enters w g (initialize_window h g self args).1 := by
  cases hw : (get_window h self).1 with
  | none =>
    left
    unfold initialize_window
    split
    · exact quiet_refl g
    · rename_i w self1 heq
      rw [heq] at hw
      exact absurd hw (by simp)
  | some w =>
    rw [initialize_window_resolved h g self args w hw]
    split_ifs with h1 h2
    · exact Or.inl (quiet_refl g)
    · exact Or.inl (quiet_refl g)
    · refine Or.inr ⟨w, h2, rfl, fun x => ?_⟩
      simp only [init_count_append, init_count_hide_and_wait, init_count_fixed_configuration,
        init_count_monitor_from_args, Nat.zero_add, Nat.add_zero]

/-- Effect of one dispatched method call on the registry and on the number of
layer-shell inits. -/
theorem handle_method_call_effect (h : Host) (g : Global) (self : WaylandLayerShellPlugin)
    (method : String) (args : FlValue) :
    Quiet g (wayland_layer_shell_plugin_handle_method_call h g self method args).1 ∨
    ∃ w, Enters w g (wayland_layer_shell_plugin_handle_method_call h g self method args).1 := by
  unfold wayland_layer_shell_plugin_handle_method_call
  by_cases h1 : method = "getPlatformVersion"
  · rw [if_pos h1]
    exact Or.inl (quiet_refl g)
  rw [if_neg h1]
  by_cases h2 : method = "isSupported"
  · rw [if_pos h2]
    exact Or.inl (quiet_refl g)
  rw [if_neg h2]
  by_cases h3 : method = "initialize"
  · rw [if_pos h3]
    exact initialize_window_effect h g self args
  rw [if_neg h3]
  by_cases h4 : method = "showWindow"
  · rw [if_pos h4]
    exact Or.inl (show_window_quiet h g self)
  rw [if_neg h4]
  by_cases h5 : method = "setLayer"
  · rw [if_pos h5]
    exact Or.inl (set_layer_quiet h g self args)
  rw [if_neg h5]
  by_cases h6 : method = "getLayer"
  · rw [if_pos h6]
    exact Or.inl (get_layer_quiet h g self)
  rw [if_neg h6]
  by_cases h7 : method = "getMonitorList"
  · rw [if_pos h7]
    exact Or.inl (quiet_refl g)
  rw [if_neg h7]
  by_cases h8 : method = "setMonitor"
  · rw [if_pos h8]
    exact Or.inl (set_monitor_quiet h g self args)
  rw [if_neg h8]
  by_cases h9 : method = "setAnchor"
  · rw [if_pos h9]
    exact Or.inl (set_anchor_quiet h g self args)
  rw [if_neg h9]
  by_cases h10 : method = "getAnchor"
  · rw [if_pos h10]
    exact Or.inl (get_anchor_quiet h g self args)
  rw [if_neg h10]
  by_cases h11 : method = "setMargin"
  · rw [if_pos h11]
    exact Or.inl (set_margin_quiet h g self args)
  rw [if_neg h11]
  by_cases h12 : method = "getMargin"
  · rw [if_pos h12]
    exact Or.inl (get_margin_quiet h g self args)
  rw [if_neg h12]
  by_cases h13 : method = "setExclusiveZone"
  · rw [if_pos h13]
    exact Or.inl (set_exclusive_zone_quiet h g self args)
  rw [if_neg h13]
  by_cases h14 : method = "getExclusiveZone"
  · rw [if_pos h14]
    exact Or.inl (get_exclusive_zone_quiet h g self)
  rw [if_neg h14]
  by_cases h15 : method = "enableAutoExclusiveZone"
  · rw [if_pos h15]
    exact Or.inl (enable_auto_exclusive_zone_quiet h g self)
  rw [if_neg h15]
  by_cases h16 : method = "isAutoExclusiveZoneEnabled"
  · rw [if_pos h16]
    exact Or.inl (is_auto_exclusive_zone_enabled_quiet h g self)
  rw [if_neg h16]
  by_cases h17 : method = "setKeyboardMode"
  · rw [if_pos h17]
    exact Or.inl (set_keyboard_mode_quiet h g self args)
  rw [if_neg h17]
  by_cases h18 : method = "getKeyboardMode"
  · rw [if_pos h18]
    exact Or.inl (get_keyboard_mode_quiet h g self)
  rw [if_neg h18]
  exact Or.inl (quiet_refl g)

theorem RegistryInv_quiet (g g1 : Global) (hq : Quiet g g1) (hi : RegistryInv g) :
    RegistryInv g1 := by
  obtain ⟨hr, hc⟩ := hq
  exact ⟨fun w => by rw [hr]; exact hi.1 w, fun w hw => by
    rw [hc]
    rw [hr] at hw
    exact hi.2 w hw⟩

theorem RegistryInv_enters (w : GtkWindow) (g g1 : Global) (he : Enters w g g1)
    (hi : RegistryInv g) : RegistryInv g1 := by
  obtain ⟨_, hr, hc⟩ := he
  constructor
  · intro x
    rw [hr]
    by_cases hx : x = w
    · simp [hx]
    · simp only [hx, if_false]
      exact hi.1 x
  · intro x hx
    rw [hc]
    rw [hr] at hx
    by_cases hxw : x = w
    · simp [hxw]
    · simp only [hxw, if_false] at hx ⊢
      exact hi.2 x hx

theorem RegistryExact_quiet (g g1 : Global) (hq : Quiet g g1) (hi : RegistryExact g) :
    RegistryExact g1 := by
  obtain ⟨hr, hc⟩ := hq
  intro w
  rw [hc, hr]
  exact hi w

theorem RegistryExact_enters (w : GtkWindow) (g g1 : Global) (he : Enters w g g1)
    (hi : RegistryExact g) : RegistryExact g1 := by
  obtain ⟨hn, hr, hc⟩ := he
  intro x
  rw [hc, hr, hi x]
  by_cases hxw : x = w
  · subst hxw
    simp [hn]
  · simp [hxw]

theorem RegistryInv_dispose (g : Global) (self : WaylandLayerShellPlugin)
    (hi : RegistryInv g) : RegistryInv (wayland_layer_shell_plugin_dispose g self).1 := by
  unfold wayland_layer_shell_plugin_dispose
  split
  · rename_i target _
    constructor
    · intro x
      by_cases hx : x = target
      · simp [hx]
      · simp only [hx, if_false]
        exact hi.1 x
    · intro x hx
      by_cases hxt : x = target
      · simp [hxt] at hx
      · simp only [hxt, if_false] at hx
        exact hi.2 x hx
  · exact hi

theorem RegistryInv_step (s : System) (e : Event) (hi : RegistryInv s.global) :
    RegistryInv (step s e).global := by
  cases e with
  | register r => exact hi
  | method_call h idx method args =>
    simp only [step]
    split
    · exact hi
    · rename_i self _
      rcases handle_method_call_effect h s.global self method args with hq | ⟨w, he⟩
      · exact RegistryInv_quiet _ _ hq hi
      · exact RegistryInv_enters w _ _ he hi
  | dispose idx =>
    simp only [step]
    split
    · exact hi
    · rename_i self _
      exact RegistryInv_dispose s.global self hi

theorem RegistryExact_step (s : System) (e : Event) (hd : e.is_dispose = false)
    (hi : RegistryExact s.global) : RegistryExact (step s e).global := by
  cases e with
  | register r => exact hi
  | method_call h idx method args =>
    simp only [step]
    split
    · exact hi
    · rename_i self _
      rcases handle_method_call_effect h s.global self method args with hq | ⟨w, he⟩
      · exact RegistryExact_quiet _ _ hq hi
      · exact RegistryExact_enters w _ _ he hi
  | dispose idx => simp [Event.is_dispose] at hd

theorem RegistryInv_foldl (events : List Event) :
    ∀ s : System, RegistryInv s.global → RegistryInv (events.foldl step s).global := by
  induction events with
  | nil => intro s hi; exact hi
  | cons e es ih => intro s hi; exact ih (step s e) (RegistryInv_step s e hi)

theorem RegistryExact_foldl (events : List Event) :
    ∀ s : System, (∀ e ∈ events, e.is_dispose = false) → RegistryExact s.global →
      RegistryExact (events.foldl step s).global := by
  induction events with
  | nil => intro s _ hi; exact hi
  | cons e es ih =>
    intro s hd hi
    exact ih (step s e) (fun x hx => hd x (List.mem_cons_of_mem _ hx))
      (RegistryExact_step s e (hd e (List.mem_cons_self _ _)) hi)

/-- C10 fails as stated: two instances resolve to window 7; the first
initializes it and is disposed; the second initializes it again.  The window
is in the registry with value true and `gtk_layer_init_for_window` has been
called on it twice. -/
theorem C10_exactly_once_counterexample :
    (run [Event.register 0, Event.register 1,
      Event.method_call (sample_host (some 7) true false 0 []) 0 "initialize"
        (size_args 800 40),
      Event.dispose 0,
      Event.method_call (sample_host (some 7) true false 0 []) 1 "initialize"
        (size_args 800 40)]).global.initialized_windows 7 = some true ∧
    init_count 7 (run [Event.register 0, Event.register 1,
      Event.method_call (sample_host (some 7) true false 0 []) 0 "initialize"
        (size_args 800 40),
      Event.dispose 0,
      Event.method_call (sample_host (some 7) true false 0 []) 1 "initialize"
        (size_args 800 40)]).global.trace = 2 := by
  decide

theorem Accounted_quiet (c : GtkWindow → Nat) (g g1 : Global) (hq : Quiet g g1)
    (ha : Accounted c g) : Accounted c g1 := by
  obtain ⟨hr, hc⟩ := hq
  intro w
  rw [hc, hr]
  exact ha w

theorem Accounted_enters (c : GtkWindow → Nat) (w : GtkWindow) (g g1 : Global)
    (he : Enters w g g1) (ha : Accounted c g) : Accounted c g1 := by
  obtain ⟨hn, hr, hc⟩ := he
  intro x
  rw [hc, hr, ha x]
  by_cases hxw : x = w
  · subst hxw
    simp [hn]
  · simp [hxw]

/-- One event keeps the account, adding the entry it removes, if any. -/
theorem Accounted_step (c : GtkWindow → Nat) (s : System) (e : Event)
    (ha : Accounted c s.global) :
    Accounted (fun w => c w + if erased_entry s e = some w then 1 else 0)
      (step s e).global := by
  cases e with
  | register r =>
    intro w
    simpa [erased_entry, step] using ha w
  | method_call h idx method args =>
    have hc : (fun w => c w + if erased_entry s (Event.method_call h idx method args) = some w
        then 1 else 0) = c := by
      funext w
      simp [erased_entry]
    rw [hc]
    simp only [step]
    split
    · exact ha
    · rename_i self _
      rcases handle_method_call_effect h s.global self method args with hq | ⟨w, he⟩
      · exact Accounted_quiet c _ _ hq ha
      · exact Accounted_enters c w _ _ he ha
  | dispose idx =>
    intro w
    have hw := ha w
    cases hp : s.plugins[idx]? with
    | none =>
      simp only [step, erased_entry, hp]
      simpa using hw
    | some self =>
      cases ht : self.target_window with
      | none =>
        simp only [step, erased_entry, hp, wayland_layer_shell_plugin_dispose, ht]
        simpa using hw
      | some target =>
        simp only [step, erased_entry, hp, wayland_layer_shell_plugin_dispose, ht]
        by_cases hwt : w = target
        · subst hwt
          by_cases hm : s.global.initialized_windows w = some true
          · simp [hm] at hw ⊢
            exact hw
          · simp [hm] at hw ⊢
            exact hw
        · have hne : ¬ target = w := fun e => hwt e.symm
          by_cases hm : s.global.initialized_windows target = some true
          · simp [hm, hwt, hne]
            exact hw
          · simp [hm, hwt]
            exact hw

theorem Accounted_foldl (events : List Event) :
    ∀ (s : System) (c : GtkWindow → Nat), Accounted c s.global →
      Accounted (fun w => c w + erase_count w s events) (events.foldl step s).global := by
  induction events with
  | nil =>
    intro s c ha
    simpa [erase_count] using ha
  | cons e es ih =>
    intro s c ha
    have h1 := ih (step s e) _ (Accounted_step c s e ha)
    intro w
    have h2 := h1 w
    simp only at h2
    simp only [List.foldl_cons, erase_count]
    rw [h2]
    omega

/-- C10 as amended: in every state reached by any sequence of registrations,
method calls and disposals on any number of instances, the registry holds no
entry with value false and every window it marks true has had
`gtk_layer_init_for_window` called on it at least once, and exactly once
unless a disposal has removed that window's own entry earlier in the run.
Precisely, the number of calls on a window is the number of times a disposal
removed its entry, plus one when the registry marks it; so disposals of
instances on other windows leave exactly-once intact, and without any
disposal the marked windows are those with exactly one call and no other
window has any. -/
theorem C10_registry_invariant (events : List Event) :
    (∀ w, (run events).global.initialized_windows w ≠ some false) ∧
    (∀ w, (run events).global.initialized_windows w = some true →
      1 ≤ init_count w (run events).global.trace) ∧
    (∀ w, init_count w (run events).global.trace =
      erase_count w System.start events +
        if (run events).global.initialized_windows w = some true then 1 else 0) ∧
    (∀ w, (run events).global.initialized_windows w = some true →
      (init_count w (run events).global.trace = 1 ↔
        erase_count w System.start events = 0)) ∧
    ((∀ e ∈ events, e.is_dispose = false) →
      ∀ w, init_count w (run events).global.trace =
        if (run events).global.initialized_windows w = some true then 1 else 0) := by
  have hstart : RegistryInv System.start.global :=
    ⟨fun w => by simp [System.start, Global.start],
      fun w hw => by simp [System.start, Global.start] at hw⟩
  have hexact : RegistryExact System.start.global := by
    intro w
    simp [System.start, Global.start, init_count]
  have hi := RegistryInv_foldl events System.start hstart
  have hacc : ∀ w, init_count w (run events).global.trace =
      erase_count w System.start events +
        if (run events).global.initialized_windows w = some true then 1 else 0 := by
    intro w
    have h0 : Accounted (fun _ => 0) System.start.global := by
      intro x
      simp [System.start, Global.start, init_count]
    have h1 := Accounted_foldl events System.start (fun _ => 0) h0 w
    simpa [run] using h1
  refine ⟨hi.1, hi.2, hacc, ?_, fun hd => RegistryExact_foldl events System.start hd hexact⟩
  intro w hw
  have h2 := hacc w
  rw [if_pos hw] at h2
  omega

/-- A run in which the disposed instance holds another window: instance 0
initializes window 7, instance 1 initializes window 9 and is disposed, and
instance 0 calls the initialization again.  No disposal removed the entry of
window 7, which is marked and has exactly one `gtk_layer_init_for_window`. -/
theorem unrelated_dispose_keeps_exactly_once :
    erase_count 7 System.start [Event.register 0, Event.register 1,
      Event.method_call (sample_host (some 7) true false 0 []) 0 "initialize"
        (size_args 800 40),
      Event.method_call (sample_host (some 9) true false 0 []) 1 "initialize"
        (size_args 800 40),
      Event.dispose 1,
      Event.method_call (sample_host (some 7) true false 0 []) 0 "initialize"
        (size_args 800 40)] = 0 ∧
    (run [Event.register 0, Event.register 1,
      Event.method_call (sample_host (some 7) true false 0 []) 0 "initialize"
        (size_args 800 40),
      Event.method_call (sample_host (some 9) true false 0 []) 1 "initialize"
        (size_args 800 40),
      Event.dispose 1,
      Event.method_call (sample_host (some 7) true false 0 []) 0 "initialize"
        (size_args 800 40)]).global.initialized_windows 7 = some true ∧
    init_count 7 (run [Event.register 0, Event.register 1,
      Event.method_call (sample_host (some 7) true false 0 []) 0 "initialize"
        (size_args 800 40),
      Event.method_call (sample_host (some 9) true false 0 []) 1 "initialize"
        (size_args 800 40),
      Event.dispose 1,
      Event.method_call (sample_host (some 7) true false 0 []) 0 "initialize"
        (size_args 800 40)]).global.trace = 1 := by
  decide

/-! ## The call sequence of the initialization -/

/-- The monitor part of the initialization issues nothing, or a single
`gtk_layer_set_monitor` with an index in range. -/
theorem monitor_from_args_shape (h : Host) (w : GtkWindow) (args : FlValue) :
    monitor_from_args h w args = [] ∨
    ∃ k : Int, 0 ≤ k ∧ k < (h.monitors.length : Int) ∧
      monitor_from_args h w args = [Call.gtk_layer_set_monitor w (some k)] := by
  have key : ∀ k : Int, assign_if_in_range h w k = [] ∨
      ∃ j : Int, 0 ≤ j ∧ j < (h.monitors.length : Int) ∧
        assign_if_in_range h w k = [Call.gtk_layer_set_monitor w (some j)] := by
    intro k
    unfold assign_if_in_range gdk_display_get_n_monitors
    split_ifs with hk
    · exact Or.inr ⟨k, hk.1, hk.2, rfl⟩
    · exact Or.inl rfl
  unfold monitor_from_args
  split
  · exact Or.inl rfl
  · split
    · exact key _
    · exact Or.inl rfl
  · exact key _
  · exact Or.inl rfl

/-- C11: an initialization that passes the early returns (window resolved,
platform supported, window not marked in the registry) issues a fixed
sequence of calls.  After the optional hide and wait come the size request
with the width and height of the arguments and the decoration removal, then
`gtk_layer_init_for_window`, followed at once by layer TOP, anchors BOTTOM,
LEFT, RIGHT true and TOP false, margins BOTTOM, LEFT, RIGHT 0, the automatic
exclusive zone and keyboard mode ON_DEMAND; a monitor assignment, if any, is
the single last call; the TOP margin is never written; the window is marked
true in the registry and the response is true. -/
theorem C11_initialize_call_sequence (h : Host) (g : Global)
    (self : WaylandLayerShellPlugin) (args : FlValue) (w : GtkWindow)
    (hw : (get_window h self).1 = some w) (hs : h.supported = true)
    (hi : g.initialized_windows w ≠ some true) :
    (initialize_window h g self args).2.2 = respond_bool true ∧
    (initialize_window h g self args).1.initialized_windows w = some true ∧
    (∀ c ∈ hide_and_wait h w, c = Call.gtk_widget_hide w ∨ c = Call.gtk_main_iteration_do) ∧
    (monitor_from_args h w args = [] ∨
      ∃ k : Int, 0 ≤ k ∧ k < (h.monitors.length : Int) ∧
        monitor_from_args h w args = [Call.gtk_layer_set_monitor w (some k)]) ∧
    ∃ calls : List Call,
      (initialize_window h g self args).1.trace = g.trace ++ calls ∧
      calls = hide_and_wait h w ++
        [ Call.gtk_widget_set_size_request w
            (to_gint (fl_value_get_int (fl_value_lookup_string args "width")))
            (to_gint (fl_value_get_int (fl_value_lookup_string args "height"))),
          Call.gtk_window_set_decorated w false,
          Call.gtk_layer_init_for_window w,
          Call.gtk_layer_set_layer w GTK_LAYER_SHELL_LAYER_TOP,
          Call.gtk_layer_set_anchor w GTK_LAYER_SHELL_EDGE_BOTTOM true,
          Call.gtk_layer_set_anchor w GTK_LAYER_SHELL_EDGE_LEFT true,
          Call.gtk_layer_set_anchor w GTK_LAYER_SHELL_EDGE_RIGHT true,
          Call.gtk_layer_set_anchor w GTK_LAYER_SHELL_EDGE_TOP false,
          Call.gtk_layer_set_margin w GTK_LAYER_SHELL_EDGE_BOTTOM 0,
          Call.gtk_layer_set_margin w GTK_LAYER_SHELL_EDGE_LEFT 0,
          Call.gtk_layer_set_margin w GTK_LAYER_SHELL_EDGE_RIGHT 0,
          Call.gtk_layer_auto_exclusive_zone_enable w,
          Call.gtk_layer_set_keyboard_mode w GTK_LAYER_SHELL_KEYBOARD_MODE_ON_DEMAND ] ++
        monitor_from_args h w args ∧
      ∀ m : Int, Call.gtk_layer_set_margin w GTK_LAYER_SHELL_EDGE_TOP m ∉ calls := by
  rw [initialize_window_resolved h g self args w hw, if_neg (by simp [hs]), if_neg hi]
  have hhide : ∀ c ∈ hide_and_wait h w,
      c = Call.gtk_widget_hide w ∨ c = Call.gtk_main_iteration_do := by
    intro c hc
    unfold hide_and_wait at hc
    split_ifs at hc
    · rw [List.mem_cons] at hc
      rcases hc with hc | hc
      · exact Or.inl hc
      · exact Or.inr (List.eq_of_mem_replicate hc)
    · exact absurd hc (List.not_mem_nil c)
  have hmon := monitor_from_args_shape h w args
  refine ⟨rfl, by simp, hhide, hmon, _, rfl, rfl, ?_⟩
  intro m hmem
  rw [List.mem_append, List.mem_append] at hmem
  rcases hmem with (hmem | hmem) | hmem
  · rcases hhide _ hmem with e | e <;> exact absurd e (by simp)
  · simp [fixed_configuration, GTK_LAYER_SHELL_EDGE_TOP, GTK_LAYER_SHELL_EDGE_BOTTOM,
      GTK_LAYER_SHELL_EDGE_LEFT, GTK_LAYER_SHELL_EDGE_RIGHT] at hmem
  · rcases hmon with e | ⟨k, _, _, e⟩
    · rw [e] at hmem
      exact absurd hmem (List.not_mem_nil _)
    · rw [e, List.mem_singleton] at hmem
      exact absurd hmem (by simp)

/-- C11 applied to a mapped window that needs one round to unmap, with the
monitor given as the string `0:A`. -/
theorem C11_initialize_call_sequence_witness :
    (get_window (sample_host (some 7) true true 1 ["A"]) ⟨0, none⟩).1 = some 7 ∧
    (sample_host (some 7) true true 1 ["A"]).supported = true ∧
    Global.start.initialized_windows 7 ≠ some true ∧
    (initialize_window (sample_host (some 7) true true 1 ["A"]) Global.start ⟨0, none⟩
      (FlValue.map [(FlValue.string "width", FlValue.int 800),
        (FlValue.string "height", FlValue.int 40),
        (FlValue.string "monitor", FlValue.string "0:A")])).1.initialized_windows 7 =
      some true :=
  ⟨rfl, rfl, by simp [Global.start],
    (C11_initialize_call_sequence (sample_host (some 7) true true 1 ["A"]) Global.start
      ⟨0, none⟩
      (FlValue.map [(FlValue.string "width", FlValue.int 800),
        (FlValue.string "height", FlValue.int 40),
        (FlValue.string "monitor", FlValue.string "0:A")])
      7 rfl rfl (by simp [Global.start])).2.1⟩

/-! ## Monitor ids of any shape -/

/-- A non-empty string splits into its text before the first colon, followed
by at most one more part. -/
theorem g_strsplit_nonempty (s : List Char) (hs : s ≠ []) :
    ∃ rest, g_strsplit s = before_colon s :: rest := by
  cases s with
  | nil => exact absurd rfl hs
  | cons c t =>
    unfold g_strsplit before_colon
    simp only
    cases hd : (c :: t).dropWhile (fun c => c != ':') with
    | nil =>
      have e := List.takeWhile_append_dropWhile (fun c => c != ':') (c :: t)
      rw [hd, List.append_nil] at e
      exact ⟨[], by rw [e]⟩
    | cons d remainder => exact ⟨[remainder], rfl⟩

/-- Without a leading integer `g_ascii_strtoll` yields 0. -/
theorem g_ascii_strtoll_no_integer (p : List Char) (hp : has_leading_integer p = false) :
    g_ascii_strtoll p = 0 := by
  unfold has_leading_integer at hp
  unfold g_ascii_strtoll
  have hz : parse_digits (parse_sign (p.dropWhile ISSPACE)).2 0 false = (0, false) := by
    cases hq : (parse_sign (p.dropWhile ISSPACE)).2 with
    | nil => rfl
    | cons c t =>
      rw [hq] at hp
      simp only [decide_eq_false_iff_not] at hp
      rw [parse_digits, if_neg hp]
  simp only [hz, Bool.false_eq_true, if_false]
  split_ifs with h1 h2 h3
  · omega
  · simp
  · omega
  · simp

/-- Every string id resolves to an index. -/
theorem set_monitor_index_string (s : String) :
    ∃ k, set_monitor_index (FlValue.string s) = some k := by
  unfold set_monitor_index
  simp only
  cases g_strsplit s.data with
  | nil => exact ⟨-1, rfl⟩
  | cons parts0 rest => exact ⟨_, rfl⟩

/-- C12: `set_monitor` never rejects a string id for being malformed.  Every
string resolves to an index.  On a resolved window the empty string resolves
to -1 (the split yields no first part), which clears the assignment and
returns true; every non-empty string whose text before the first colon has no
leading decimal integer (after white space and an optional sign there is no
digit, as in `abc` or `:Foo`) resolves to 0, which assigns monitor 0 and
returns true whenever a monitor is attached.  A value is rejected on account
of its form exactly when it is neither a string nor an integer. -/
theorem C12_string_ids_never_malformed (h : Host) (g : Global)
    (self : WaylandLayerShellPlugin) (args : FlValue) (w : GtkWindow)
    (hw : (get_window h self).1 = some w) :
    (∀ s : String, ∃ k, set_monitor_index (FlValue.string s) = some k) ∧
    set_monitor_index (FlValue.string "") = some (-1) ∧
    (fl_value_lookup_string args "id" = some (FlValue.string "") →
      set_monitor h g self args =
        (g.emit [Call.gtk_layer_set_monitor w none], (get_window h self).2,
          respond_bool true)) ∧
    (∀ s : String, s ≠ "" → has_leading_integer (before_colon s.data) = false →
      set_monitor_index (FlValue.string s) = some 0 ∧
      (fl_value_lookup_string args "id" = some (FlValue.string s) →
        1 ≤ h.monitors.length →
        set_monitor h g self args =
          (g.emit [Call.gtk_layer_set_monitor w (some 0)], (get_window h self).2,
            respond_bool true))) ∧
    (∀ monitor_value : FlValue,
      set_monitor_index monitor_value = none ↔ monitor_value.is_string_or_int = false) ∧
    (∀ monitor_value : FlValue, monitor_value.is_string_or_int = false →
      fl_value_lookup_string args "id" = some monitor_value →
      set_monitor h g self args = (g, (get_window h self).2, respond_bool false)) := by
  have hempty : set_monitor_index (FlValue.string "") = some (-1) := rfl
  have hform : ∀ monitor_value : FlValue,
      set_monitor_index monitor_value = none ↔ monitor_value.is_string_or_int = false := by
    intro monitor_value
    cases monitor_value with
    | string s =>
      obtain ⟨k, hk⟩ := set_monitor_index_string s
      simp [hk, FlValue.is_string_or_int]
    | int v => simp [set_monitor_index, FlValue.is_string_or_int]
    | null => simp [set_monitor_index, FlValue.is_string_or_int]
    | bool b => simp [set_monitor_index, FlValue.is_string_or_int]
    | list xs => simp [set_monitor_index, FlValue.is_string_or_int]
    | map kvs => simp [set_monitor_index, FlValue.is_string_or_int]
    | other t => simp [set_monitor_index, FlValue.is_string_or_int]
  refine ⟨set_monitor_index_string, hempty, ?_, ?_, hform, ?_⟩
  · intro hid
    rw [set_monitor_resolved h g self args _ w (-1) hw hid hempty, if_pos rfl]
  · intro s hne hlead
    have hdata : s.data ≠ [] := by
      intro e
      apply hne
      cases s
      simp only at e
      subst e
      rfl
    obtain ⟨rest, hsplit⟩ := g_strsplit_nonempty s.data hdata
    have hzero : set_monitor_index (FlValue.string s) = some 0 := by
      unfold set_monitor_index
      simp only [hsplit, g_ascii_strtoll_no_integer _ hlead]
      rfl
    refine ⟨hzero, ?_⟩
    intro hid hn
    rw [set_monitor_resolved h g self args _ w 0 hw hid hzero, if_neg (by decide),
      if_pos]
    unfold gdk_display_get_n_monitors
    omega
  · intro monitor_value hf hid
    have hnone := (hform monitor_value).2 hf
    unfold set_monitor
    rw [get_window_eq h self w hw]
    simp only [hid, hnone]

/-- C12 applied to the id `abc` on a window with one monitor. -/
theorem C12_string_ids_never_malformed_witness :
    (get_window (sample_host (some 7) true false 0 ["A"]) ⟨0, none⟩).1 = some 7 ∧
    set_monitor_index (FlValue.string "abc") = some 0 ∧
    set_monitor (sample_host (some 7) true false 0 ["A"]) Global.start ⟨0, none⟩
        (FlValue.map [(FlValue.string "id", FlValue.string "abc")]) =
      (Global.start.emit [Call.gtk_layer_set_monitor 7 (some 0)],
        (get_window (sample_host (some 7) true false 0 ["A"]) ⟨0, none⟩).2,
        respond_bool true) :=
  ⟨rfl,
    ((C12_string_ids_never_malformed (sample_host (some 7) true false 0 ["A"]) Global.start
      ⟨0, none⟩ (FlValue.map [(FlValue.string "id", FlValue.string "abc")]) 7 rfl).2.2.2.1
      "abc" (by decide) (by decide)).1,
    ((C12_string_ids_never_malformed (sample_host (some 7) true false 0 ["A"]) Global.start
      ⟨0, none⟩ (FlValue.map [(FlValue.string "id", FlValue.string "abc")]) 7 rfl).2.2.2.1
      "abc" (by decide) (by decide)).2 rfl (by decide)⟩

end WaylandLayerShell
